import Mathlib

/-!
Verification of the Research Decision & Synthesis Pipeline of the
`agi-desktop-agent` repository, as a shallow embedding in Lean 4.

Python source files embedded here:
- `src/agents/email_intelligence_agent.py` (entity triage, knowledge gate,
  analyze_email decision bookkeeping)
- `src/agents/meeting_agent.py` (structured-output repair, source attribution)
- `src/agents/orchestrator.py` (routing envelope and error results)
- `src/agents/linkup_wrapper.py` (search-result normalization)
- `src/memory/store.py` (date parsing and date sort)
- `src/memory/session_store.py` (append-only session log)

Conventions: Python strings are Lean `String`; `str.lower()`, `str.strip()`,
`str.split()`, `str.replace()`, `str.startswith()` and the substring
operator `in` are modelled by the executable char-list functions `pyLower`,
`pyStrip`, `pySplitWs`, `pyReplace`, `pyStartsWith` and `pyIn` below
(ASCII case folding, which covers every literal the embedded code
compares).  Numbers that Python keeps as floats but that only ever hold
exact decimal values are `ℚ`; functions that can raise return `Except` or
`Option`.  External collaborators (the Groq LLM endpoint, the Linkup
provider, `json.loads`, the wall clock) are passed in as explicit function
arguments, so every theorem quantifies over their behaviour.
-/

/-- Python-style substring test: `needle in hay` on strings. -/
def pyIn (needle hay : String) : Bool :=
  decide (List.IsInfix needle.data hay.data)

/-- Python `str.lower()` (ASCII case folding on the character data). -/
def pyLower (s : String) : String :=
  ⟨s.data.map Char.toLower⟩

/-- Python `str.strip()`: remove leading and trailing whitespace. -/
def pyStrip (s : String) : String :=
  ⟨((s.data.dropWhile Char.isWhitespace).reverse.dropWhile
      Char.isWhitespace).reverse⟩

/-- Python `str.startswith(needle)`. -/
def pyStartsWith (s needle : String) : Bool :=
  needle.data.isPrefixOf s.data

/-- Worker for `pySplitWs`: accumulate the current word (reversed) while
scanning. -/
def pySplitWsAux : List Char → List Char → List String
  | [], acc => if acc = [] then [] else [⟨acc.reverse⟩]
  | c :: rest, acc =>
    if c.isWhitespace then
      if acc = [] then pySplitWsAux rest []
      else ⟨acc.reverse⟩ :: pySplitWsAux rest []
    else pySplitWsAux rest (c :: acc)

/-- Python `str.split()` with no argument: split on whitespace runs,
dropping empty pieces. -/
def pySplitWs (s : String) : List String :=
  pySplitWsAux s.data []

/-- Fuel-driven worker for `pyReplace`: replace each non-overlapping,
leftmost-first occurrence of `olds` by `news`.  The fuel is the length of
the scanned list, which bounds the number of steps. -/
def pyReplaceAux (fuel : ℕ) (olds news : List Char) (s : List Char) :
    List Char :=
  match fuel, s with
  | 0, rest => rest
  | _ + 1, [] => []
  | fuel + 1, c :: rest =>
    if olds ≠ [] ∧ olds.isPrefixOf (c :: rest) then
      news ++ pyReplaceAux fuel olds news ((c :: rest).drop olds.length)
    else
      c :: pyReplaceAux fuel olds news rest

/-- Python `str.replace(old, new)` for a non-empty `old` pattern: replace
all non-overlapping occurrences from the left.  The embedded code only
ever replaces non-empty patterns. -/
def pyReplace (s old new : String) : String :=
  if old = "" then s
  else ⟨pyReplaceAux s.data.length old.data new.data s.data⟩

/-- JSON values as produced by `json.loads`: the possible shapes of a
parsed LLM reply. -/
inductive Json where
  | null : Json
  | bool (b : Bool) : Json
  | num (q : ℚ) : Json
  | str (s : String) : Json
  | arr (xs : List Json) : Json
  | obj (fields : List (String × Json)) : Json
  deriving Repr

/-- Python `dict.get(key, default)` on a JSON object: the first binding of
the key, or the default.  On non-objects Python would raise; the embedded
callers only apply it to parsed objects, so other shapes yield the default. -/
def Json.get (j : Json) (key : String) (default : Json) : Json :=
  match j with
  | .obj fields =>
    match fields.find? (fun kv => kv.1 = key) with
    | some kv => kv.2
    | none => default
  | _ => default

namespace EmailIntel

/-- Entity as extracted from an email: `{name, type, context}`
(`email_intelligence_agent.py`, data model of §3).  String fields only;
never mutated after creation. -/
structure Entity where
  name : String
  type : String
  context : String
  deriving DecidableEq, Repr

/-- GENERIC_TERMS list from `EmailIntelligenceAgent` (lines 18-42). -/
def GENERIC_TERMS : List String :=
  [ "real-time data processing", "real-time processing", "machine learning",
    "artificial intelligence", "cloud computing", "data analytics", "big data",
    "deep learning", "natural language processing", "computer vision", "iot",
    "blockchain", "web3", "ai/ml", "ai", "ml", "quantum computing",
    "edge computing", "neural networks", "data science", "enterprise software",
    "saas", "apis" ]

/-- `_is_generic_term` (lines 462-485): exact match against the generic
list, type-aware close match for concept-like entity types, and the
compound real-time pattern. -/
def isGenericTerm (entity_name entity_type : String) : Bool :=
  let entity_lower := pyStrip (pyLower entity_name)
  if GENERIC_TERMS.any (fun generic => entity_lower = generic) then
    true
  else if (entity_type = "product/service" ∨ entity_type = "technology" ∨
      entity_type = "concept") ∧
      GENERIC_TERMS.any (fun generic =>
        entity_lower = generic ∨ pySplitWs entity_lower = pySplitWs generic) then
    true
  else if pyIn "real-time" entity_lower ∧
      (pyIn "process" entity_lower ∨ pyIn "data" entity_lower) then
    true
  else
    false

/-- `_is_self_reference` (lines 487-506): exact lowercase match with the
recipient company, or match after removing spaces and hyphens. -/
def isSelfReference (recipient_company entity_name : String) : Bool :=
  let entity_lower := pyStrip (pyLower entity_name)
  let recipient_lower := pyStrip (pyLower recipient_company)
  if entity_lower = recipient_lower then
    true
  else
    let entity_clean := pyReplace (pyReplace entity_lower " " "") "-" ""
    let recipient_clean := pyReplace (pyReplace recipient_lower " " "") "-" ""
    entity_clean = recipient_clean

/-- Triage tier an entity is routed to by `_prioritize_entities`. -/
inductive Tier where
  | critical
  | validation
  | skip
  deriving DecidableEq, Repr

/-- Branch ladder of the `_prioritize_entities` loop body (lines 529-580):
the tier a single entity is routed to.  Each guard mirrors the Python
conditions in order; a guard whose inner condition fails falls through to
the next check exactly as the Python `continue` placement dictates. -/
def classifyEntity (recipient_company : String) (e : Entity) : Tier :=
  let entity_name := e.name
  let entity_type := e.type
  let context := pyLower e.context
  if isSelfReference recipient_company entity_name then .skip
  else if isGenericTerm entity_name entity_type then .skip
  else if (pyIn "sender" context ∨ pyIn "from" context ∨ pyIn "vc" context ∨
        pyIn "investor" context) ∧
      (entity_type = "company" ∨ pyIn "ventures" (pyLower entity_name)) then
    .critical
  else if entity_type = "person" ∧
      (["managing director", "founder", "ceo", "director", "investor"].any
        (fun keyword => pyIn keyword context)) then
    .critical
  else if (pyIn "portfolio" context ∨ pyIn "company" entity_type) ∧
      (["portfolio", "invest", "partner", "example"].any
        (fun keyword => pyIn keyword context)) then
    .validation
  else
    .validation

/-- TriageResult: the `{'critical': ..., 'validation': ..., 'skip': ...}`
dict returned by `_prioritize_entities`. -/
structure TriageResult where
  critical : List Entity
  validation : List Entity
  skip : List Entity
  deriving DecidableEq, Repr

/-- `_prioritize_entities` (lines 508-582): route each entity to exactly
one of the three lists, preserving input order within each list. -/
def prioritizeEntities (recipient_company : String) (entities : List Entity) :
    TriageResult where
  critical := entities.filter (fun e => classifyEntity recipient_company e = .critical)
  validation := entities.filter (fun e => classifyEntity recipient_company e = .validation)
  skip := entities.filter (fun e => classifyEntity recipient_company e = .skip)

/-- Routing each entity through `classifyEntity` splits the length of the
input across the three filtered tiers. -/
theorem classify_filter_length (f : Entity → Tier) (entities : List Entity) :
    (entities.filter (fun e => f e = .critical)).length +
      (entities.filter (fun e => f e = .validation)).length +
      (entities.filter (fun e => f e = .skip)).length = entities.length := by
  induction entities with
  | nil => simp
  | cons a l ih =>
    rcases h : f a <;> simp [List.filter_cons, h] <;> omega

/-- Multiplicity of any entity is preserved across the three filtered tiers. -/
theorem classify_filter_count (f : Entity → Tier) (entities : List Entity)
    (e : Entity) :
    (entities.filter (fun x => f x = .critical)).count e +
      (entities.filter (fun x => f x = .validation)).count e +
      (entities.filter (fun x => f x = .skip)).count e = entities.count e := by
  induction entities with
  | nil => simp
  | cons a l ih =>
    by_cases hea : a = e
    · subst hea
      rcases h : f a <;>
        simp only [List.filter_cons, h, decide_True, decide_False,
          List.count_cons_self, ite_true, ite_false, decide_eq_true_eq] <;>
        simp_all <;> omega
    · rcases h : f a <;>
        simp [List.filter_cons, h, List.count_cons, hea, ih]

/-- C3: for every operator identity and every list of input entities,
`_prioritize_entities` returns three lists `critical`, `validation`,
`skip` whose lengths sum to the number of input entities, and every input
entity appears in exactly one of the three lists (multiplicity of each
entity is preserved, and all copies land in a single tier). -/
theorem triage_partition_exhaustive_disjoint (recipient_company : String)
    (entities : List Entity) :
    ((prioritizeEntities recipient_company entities).critical.length +
      (prioritizeEntities recipient_company entities).validation.length +
      (prioritizeEntities recipient_company entities).skip.length =
      entities.length) ∧
    (∀ e : Entity,
      ((prioritizeEntities recipient_company entities).critical.count e +
        (prioritizeEntities recipient_company entities).validation.count e +
        (prioritizeEntities recipient_company entities).skip.count e =
        entities.count e) ∧
      (e ∈ entities →
        (e ∈ (prioritizeEntities recipient_company entities).critical ∨
          e ∈ (prioritizeEntities recipient_company entities).validation ∨
          e ∈ (prioritizeEntities recipient_company entities).skip) ∧
        ¬(e ∈ (prioritizeEntities recipient_company entities).critical ∧
            e ∈ (prioritizeEntities recipient_company entities).validation) ∧
        ¬(e ∈ (prioritizeEntities recipient_company entities).critical ∧
            e ∈ (prioritizeEntities recipient_company entities).skip) ∧
        ¬(e ∈ (prioritizeEntities recipient_company entities).validation ∧
            e ∈ (prioritizeEntities recipient_company entities).skip))) := by
  refine ⟨classify_filter_length _ entities,
    fun e => ⟨classify_filter_count _ entities e, fun hmem => ?_⟩⟩
  simp only [prioritizeEntities, List.mem_filter]
  rcases h : classifyEntity recipient_company e with _ | _ | _ <;>
    simp [h, hmem]

/-- C3 witness: concrete three-entity triage evaluated end to end. -/
theorem triage_partition_witness :
    (⟨"Acme Ventures", "company", "VC firm from sender"⟩ : Entity) ∈
        [(⟨"Acme Ventures", "company", "VC firm from sender"⟩ : Entity),
         ⟨"machine learning", "concept", "mentioned"⟩,
         ⟨"Quantum Labs", "company", "portfolio company"⟩] ∧
    ((prioritizeEntities "DataFlow AI"
        [⟨"Acme Ventures", "company", "VC firm from sender"⟩,
         ⟨"machine learning", "concept", "mentioned"⟩,
         ⟨"Quantum Labs", "company", "portfolio company"⟩]).critical.length +
      (prioritizeEntities "DataFlow AI"
        [⟨"Acme Ventures", "company", "VC firm from sender"⟩,
         ⟨"machine learning", "concept", "mentioned"⟩,
         ⟨"Quantum Labs", "company", "portfolio company"⟩]).validation.length +
      (prioritizeEntities "DataFlow AI"
        [⟨"Acme Ventures", "company", "VC firm from sender"⟩,
         ⟨"machine learning", "concept", "mentioned"⟩,
         ⟨"Quantum Labs", "company", "portfolio company"⟩]).skip.length = 3) := by
  have h := triage_partition_exhaustive_disjoint "DataFlow AI"
    [⟨"Acme Ventures", "company", "VC firm from sender"⟩,
     ⟨"machine learning", "concept", "mentioned"⟩,
     ⟨"Quantum Labs", "company", "portfolio company"⟩]
  exact ⟨by decide, h.1⟩

/-- Entities whose name matches the recipient company after cleaning are
detected by `_is_self_reference`. -/
theorem isSelfReference_of_clean_eq (recipient_company entity_name : String)
    (hname : pyReplace (pyReplace (pyStrip (pyLower entity_name)) " " "") "-" "" =
        pyReplace (pyReplace (pyStrip (pyLower recipient_company)) " " "") "-" "") :
    isSelfReference recipient_company entity_name = true := by
  unfold isSelfReference
  by_cases h : pyStrip (pyLower entity_name) = pyStrip (pyLower recipient_company) <;>
    simp [h, hname]

/-- C9: every entity whose name equals the operator's own company name
after normalization (lowercasing, stripping outer whitespace, and removing
spaces and hyphens) is placed by `_prioritize_entities` in the `skip`
partition and in neither `critical` nor `validation`. -/
theorem self_reference_always_skipped (recipient_company : String)
    (entities : List Entity) (e : Entity) (hmem : e ∈ entities)
    (hname : pyReplace (pyReplace (pyStrip (pyLower e.name)) " " "") "-" "" =
        pyReplace (pyReplace (pyStrip (pyLower recipient_company)) " " "") "-" "") :
    e ∈ (prioritizeEntities recipient_company entities).skip ∧
    e ∉ (prioritizeEntities recipient_company entities).critical ∧
    e ∉ (prioritizeEntities recipient_company entities).validation := by
  have hself := isSelfReference_of_clean_eq recipient_company e.name hname
  have hcls : classifyEntity recipient_company e = .skip := by
    unfold classifyEntity
    simp [hself]
  simp only [prioritizeEntities, List.mem_filter]
  simp [hcls, hmem]

/-- C9 witness: the entity "DataFlow-AI" (hyphenated variant of the
operator identity "DataFlow AI") lands in `skip` only. -/
theorem self_reference_always_skipped_witness :
    (⟨"DataFlow-AI", "company", "the receiver's own company"⟩ : Entity) ∈
        (prioritizeEntities "DataFlow AI"
          [⟨"DataFlow-AI", "company", "the receiver's own company"⟩,
           ⟨"Acme Ventures", "company", "VC firm from sender"⟩]).skip ∧
    (⟨"DataFlow-AI", "company", "the receiver's own company"⟩ : Entity) ∉
        (prioritizeEntities "DataFlow AI"
          [⟨"DataFlow-AI", "company", "the receiver's own company"⟩,
           ⟨"Acme Ventures", "company", "VC firm from sender"⟩]).critical ∧
    (⟨"DataFlow-AI", "company", "the receiver's own company"⟩ : Entity) ∉
        (prioritizeEntities "DataFlow AI"
          [⟨"DataFlow-AI", "company", "the receiver's own company"⟩,
           ⟨"Acme Ventures", "company", "VC firm from sender"⟩]).validation :=
  self_reference_always_skipped "DataFlow AI"
    [⟨"DataFlow-AI", "company", "the receiver's own company"⟩,
     ⟨"Acme Ventures", "company", "VC firm from sender"⟩]
    ⟨"DataFlow-AI", "company", "the receiver's own company"⟩
    (by decide) (by decide)

end EmailIntel

/-- Python truthiness of an `Option String`, as used for
`response.get("error")` checks: present and non-empty. -/
def truthyOptStr : Option String → Bool
  | some s => s ≠ ""
  | none => false

/-- Fuel-driven worker for `pySplitOn`: same scanning discipline as
`pyReplaceAux`, collecting the pieces between occurrences of `sep`. -/
def pySplitOnAux (sep : List Char) (fuel : ℕ) (s : List Char)
    (acc : List Char) : List String :=
  match fuel, s with
  | 0, rest => [⟨acc.reverse ++ rest⟩]
  | _ + 1, [] => [⟨acc.reverse⟩]
  | fuel + 1, c :: rest =>
    if sep.isPrefixOf (c :: rest) then
      (⟨acc.reverse⟩ : String) ::
        pySplitOnAux sep fuel ((c :: rest).drop sep.length) []
    else
      pySplitOnAux sep fuel rest (c :: acc)

/-- Python `str.split(sep)` for a non-empty separator: split at each
non-overlapping occurrence, keeping empty pieces. -/
def pySplitOn (s sep : String) : List String :=
  if sep = "" then [s]
  else pySplitOnAux sep.data s.data.length s.data []

/-- Python `s[n:]`: drop the first `n` characters. -/
def pyDropChars (s : String) (n : ℕ) : String :=
  ⟨s.data.drop n⟩

/-- Response dict of `GroqClient.chat`: the fields `assess_knowledge`
reads (`error` and `content`), each possibly absent. -/
structure ChatResponse where
  error : Option String
  content : Option String
  deriving DecidableEq, Repr

namespace EmailIntel

/-- Markdown cleanup applied by `assess_knowledge` to the reply body
(lines 156-163): strip, take the text after the first code fence when the
reply starts with one, drop a leading "json" tag, strip again. -/
def assessContent (content : Option String) : String :=
  let c := pyStrip (content.getD "{}")
  let c :=
    if pyStartsWith c "```" then
      let c' := (pySplitOn c "```").getD 1 ""
      if pyStartsWith c' "json" then pyDropChars c' 4 else c'
    else c
  pyStrip c

/-- Fallback verdict built by every failure branch of `assess_knowledge`
(lines 148-154, 170-176, 179-185): `needs_search = true`,
`confidence = 0.5`, empty known info, the entity name as query.  Only the
`reasoning` sentence differs per branch. -/
def defaultVerdict (reasoning entity_name : String) : Json :=
  .obj [("needs_search", .bool true), ("reasoning", .str reasoning),
    ("confidence", .num (1/2)), ("known_info", .str ""),
    ("search_query", .str entity_name)]

/-- `assess_knowledge` (lines 86-185).  The LLM call is an explicit
outcome argument: `.error` models `groq.chat` raising (or any exception
inside the `try` body), `.ok` a returned response dict; `jloads` models
`json.loads`, with `none` for a `JSONDecodeError`.  The prompt built from
the entity and the email context only influences the LLM, which is
quantified over, so it is not reconstructed here. -/
def assessKnowledge (jloads : String → Option Json)
    (chat : Except String ChatResponse) (entity : Entity)
    (_email_context : String) : Json :=
  let entity_name := entity.name
  match chat with
  | .error _ => defaultVerdict "Error occurred, defaulting to search" entity_name
  | .ok response =>
    if truthyOptStr response.error then
      defaultVerdict "Assessment failed, defaulting to search" entity_name
    else
      match jloads (assessContent response.content) with
      | some assessment => assessment
      | none => defaultVerdict "Parsing error, defaulting to search" entity_name

/-- C1: for every entity and email context, whenever the Knowledge Gate's
LLM call raises or returns a truthy error field, or the cleaned reply
fails JSON parsing, `assess_knowledge` returns a verdict with
`needs_search = true` and `confidence = 0.5`. -/
theorem assess_knowledge_fail_open (jloads : String → Option Json)
    (chat : Except String ChatResponse) (entity : Entity)
    (email_context : String)
    (hfail : (∃ msg, chat = .error msg) ∨
      (∃ r, chat = .ok r ∧ truthyOptStr r.error = true) ∨
      (∃ r, chat = .ok r ∧ truthyOptStr r.error = false ∧
        jloads (assessContent r.content) = none)) :
    (assessKnowledge jloads chat entity email_context).get "needs_search" .null =
        .bool true ∧
    (assessKnowledge jloads chat entity email_context).get "confidence" .null =
        .num (1/2) := by
  rcases hfail with ⟨msg, rfl⟩ | ⟨r, rfl, herr⟩ | ⟨r, rfl, herr, hparse⟩
  · simp [assessKnowledge, defaultVerdict, Json.get]
  · simp [assessKnowledge, defaultVerdict, Json.get, herr]
  · simp [assessKnowledge, defaultVerdict, Json.get, herr, hparse]

/-- C1 witness: a parser that rejects everything together with a fence-only
reply forces the fail-open verdict. -/
theorem assess_knowledge_fail_open_witness :
    (assessKnowledge (fun _ => none) (.ok ⟨none, some "not json"⟩)
        ⟨"Acme Ventures", "company", "VC firm from sender"⟩ "hello").get
        "needs_search" .null = .bool true ∧
    (assessKnowledge (fun _ => none) (.ok ⟨none, some "not json"⟩)
        ⟨"Acme Ventures", "company", "VC firm from sender"⟩ "hello").get
        "confidence" .null = .num (1/2) :=
  assess_knowledge_fail_open (fun _ => none) (.ok ⟨none, some "not json"⟩)
    ⟨"Acme Ventures", "company", "VC firm from sender"⟩ "hello"
    (Or.inr (Or.inr ⟨⟨none, some "not json"⟩, rfl, rfl, rfl⟩))

end EmailIntel

/-- Python `round()` on an exact value: round half to even. -/
def pyRound (q : ℚ) : ℤ :=
  if q - ⌊q⌋ < 1/2 then ⌊q⌋
  else if 1/2 < q - ⌊q⌋ then ⌊q⌋ + 1
  else if Even ⌊q⌋ then ⌊q⌋ else ⌊q⌋ + 1

/-- Rounding an integer-valued rational is the identity. -/
theorem pyRound_intCast (m : ℤ) : pyRound (m : ℚ) = m := by
  simp [pyRound, Int.floor_intCast]

/-- Rounding a natural-valued rational is the identity. -/
theorem pyRound_natCast (m : ℕ) : pyRound (m : ℚ) = m := by
  have := pyRound_intCast (m : ℤ)
  simpa using this

namespace MeetingAgent

/-- Attribution result of `_calculate_source_attribution`
(`meeting_agent.py`, lines 576-660): the three percentage buckets and the
verification status.  The section-level attribution and metadata fields of
the returned dict are derived display data and are not modelled. -/
structure Attribution where
  memory_pct : ℤ
  linkup_pct : ℤ
  llm_pct : ℤ
  verification_status : String
  deriving DecidableEq, Repr

/-- `_calculate_source_attribution` (lines 576-660): base weight table by
availability, integer bonuses for interaction and source counts, floor of
5 on the model share, then normalization where the model bucket absorbs
the rounding remainder.  Only the interaction count and the source count
feed the percentages. -/
def calculateSourceAttribution (total_interactions sources_count : ℕ) :
    Attribution :=
  let has_memory := 0 < total_interactions
  let has_linkup := 0 < sources_count
  let base : ℚ × ℚ × ℚ :=
    if has_memory ∧ has_linkup then (30, 40, 30)
    else if has_memory ∧ ¬has_linkup then (50, 0, 50)
    else if ¬has_memory ∧ has_linkup then (0, 55, 45)
    else (0, 0, 100)
  let memory_weight := base.1
  let linkup_weight := base.2.1
  let llm_weight := base.2.2
  let interaction_bonus : ℕ := min (total_interactions * 3) 10
  let memory_weight :=
    if has_memory then memory_weight + interaction_bonus else memory_weight
  let llm_weight :=
    if has_memory then llm_weight - interaction_bonus else llm_weight
  let source_bonus : ℕ := min (sources_count * 2) 10
  let linkup_weight :=
    if has_linkup then linkup_weight + source_bonus else linkup_weight
  let llm_weight :=
    if has_linkup then llm_weight - source_bonus else llm_weight
  let llm_weight := max llm_weight 5
  let total := memory_weight + linkup_weight + llm_weight
  let memory_pct := pyRound (memory_weight / total * 100)
  let linkup_pct := pyRound (linkup_weight / total * 100)
  let llm_pct := 100 - memory_pct - linkup_pct
  { memory_pct := memory_pct
    linkup_pct := linkup_pct
    llm_pct := llm_pct
    verification_status :=
      if has_memory ∧ has_linkup then "Cross-verified"
      else if has_memory ∨ has_linkup then "Partially verified"
      else "Unverified" }

/-- C4: for every interaction count and source count — covering all four
availability cases — the attribution percentages are integers that sum to
exactly 100 and are each non-negative, and the all-absent case routes
100% to model knowledge. -/
theorem attribution_sums_to_100 (total_interactions sources_count : ℕ) :
    (calculateSourceAttribution total_interactions sources_count).memory_pct +
      (calculateSourceAttribution total_interactions sources_count).linkup_pct +
      (calculateSourceAttribution total_interactions sources_count).llm_pct
      = 100 ∧
    0 ≤ (calculateSourceAttribution total_interactions sources_count).memory_pct ∧
    0 ≤ (calculateSourceAttribution total_interactions sources_count).linkup_pct ∧
    0 ≤ (calculateSourceAttribution total_interactions sources_count).llm_pct ∧
    (total_interactions = 0 → sources_count = 0 →
      (calculateSourceAttribution total_interactions sources_count).memory_pct = 0 ∧
      (calculateSourceAttribution total_interactions sources_count).linkup_pct = 0 ∧
      (calculateSourceAttribution total_interactions sources_count).llm_pct = 100) := by
  unfold calculateSourceAttribution
  by_cases hm : 0 < total_interactions <;> by_cases hl : 0 < sources_count
  · have hb1 : min (total_interactions * 3) 10 ≤ 10 := min_le_right _ _
    have hb2 : min (sources_count * 2) 10 ≤ 10 := min_le_right _ _
    set b1 : ℕ := min (total_interactions * 3) 10 with hb1def
    set b2 : ℕ := min (sources_count * 2) 10 with hb2def
    have hmax : max ((30 : ℚ) - b1 - b2) 5 = (30 : ℚ) - b1 - b2 := by
      apply max_eq_left
      have c1 : (b1 : ℚ) ≤ 10 := by exact_mod_cast hb1
      have c2 : (b2 : ℚ) ≤ 10 := by exact_mod_cast hb2
      linarith
    simp only [hm, hl, and_true, true_and, not_true, if_true, if_false,
      and_false, false_and, ite_true, ite_false]
    rw [hmax]
    have htot : (30 : ℚ) + ↑b1 + (40 + ↑b2) + (30 - ↑b1 - ↑b2) = 100 := by ring
    rw [htot]
    have em : pyRound ((30 + (b1 : ℚ)) / 100 * 100) = ((30 + b1 : ℕ) : ℤ) := by
      have h : (30 + (b1 : ℚ)) / 100 * 100 = ((30 + b1 : ℕ) : ℚ) := by
        push_cast; ring
      rw [h, pyRound_natCast]
    have el : pyRound ((40 + (b2 : ℚ)) / 100 * 100) = ((40 + b2 : ℕ) : ℤ) := by
      have h : (40 + (b2 : ℚ)) / 100 * 100 = ((40 + b2 : ℕ) : ℚ) := by
        push_cast; ring
      rw [h, pyRound_natCast]
    rw [em, el]
    refine ⟨by ring, by positivity, by positivity, by push_cast; omega,
      fun h0 => absurd h0 (by omega)⟩
  · have hb1 : min (total_interactions * 3) 10 ≤ 10 := min_le_right _ _
    set b1 : ℕ := min (total_interactions * 3) 10 with hb1def
    have hmax : max ((50 : ℚ) - b1) 5 = (50 : ℚ) - b1 := by
      apply max_eq_left
      have c1 : (b1 : ℚ) ≤ 10 := by exact_mod_cast hb1
      linarith
    simp only [hm, hl, and_true, true_and, not_true, if_true, if_false,
      and_false, false_and, ite_true, ite_false, not_false_iff, and_self]
    rw [hmax]
    have htot : (50 : ℚ) + ↑b1 + 0 + (50 - ↑b1) = 100 := by ring
    rw [htot]
    have em : pyRound ((50 + (b1 : ℚ)) / 100 * 100) = ((50 + b1 : ℕ) : ℤ) := by
      have h : (50 + (b1 : ℚ)) / 100 * 100 = ((50 + b1 : ℕ) : ℚ) := by
        push_cast; ring
      rw [h, pyRound_natCast]
    have el : pyRound ((0 : ℚ) / 100 * 100) = (0 : ℤ) := by
      norm_num [pyRound]
    rw [em, el]
    refine ⟨by ring, by positivity, le_refl 0, by push_cast; omega,
      fun h0 => absurd h0 (by omega)⟩
  · have hb2 : min (sources_count * 2) 10 ≤ 10 := min_le_right _ _
    set b2 : ℕ := min (sources_count * 2) 10 with hb2def
    have hmax : max ((45 : ℚ) - b2) 5 = (45 : ℚ) - b2 := by
      apply max_eq_left
      have c2 : (b2 : ℚ) ≤ 10 := by exact_mod_cast hb2
      linarith
    simp only [hm, hl, and_true, true_and, not_true, if_true, if_false,
      and_false, false_and, ite_true, ite_false, not_false_iff, and_self]
    rw [hmax]
    have htot : (0 : ℚ) + (55 + ↑b2) + (45 - ↑b2) = 100 := by ring
    rw [htot]
    have em : pyRound ((0 : ℚ) / 100 * 100) = (0 : ℤ) := by
      norm_num [pyRound]
    have el : pyRound ((55 + (b2 : ℚ)) / 100 * 100) = ((55 + b2 : ℕ) : ℤ) := by
      have h : (55 + (b2 : ℚ)) / 100 * 100 = ((55 + b2 : ℕ) : ℚ) := by
        push_cast; ring
      rw [h, pyRound_natCast]
    rw [em, el]
    refine ⟨by ring, le_refl 0, by positivity, by push_cast; omega,
      fun _ h0 => absurd h0 (by omega)⟩
  · simp only [hm, hl, and_true, true_and, not_true, if_true, if_false,
      and_false, false_and, ite_true, ite_false, not_false_iff, and_self]
    have hmax : max (100 : ℚ) 5 = (100 : ℚ) := by norm_num
    rw [hmax]
    have htot : (0 : ℚ) + 0 + 100 = 100 := by ring
    rw [htot]
    have e0 : pyRound ((0 : ℚ) / 100 * 100) = (0 : ℤ) := by
      norm_num [pyRound]
    rw [e0]
    exact ⟨by ring, le_refl 0, le_refl 0, by norm_num, fun _ _ => ⟨rfl, rfl, by ring⟩⟩

end MeetingAgent

namespace MeetingAgent

/-- C4 witness: the all-absent case yields (0, 0, 100) and a populated
case still sums to 100. -/
theorem attribution_sums_to_100_witness :
    (calculateSourceAttribution 0 0).memory_pct = 0 ∧
    (calculateSourceAttribution 0 0).linkup_pct = 0 ∧
    (calculateSourceAttribution 0 0).llm_pct = 100 ∧
    (calculateSourceAttribution 2 3).memory_pct +
      (calculateSourceAttribution 2 3).linkup_pct +
      (calculateSourceAttribution 2 3).llm_pct = 100 :=
  ⟨((attribution_sums_to_100 0 0).2.2.2.2 rfl rfl).1,
   ((attribution_sums_to_100 0 0).2.2.2.2 rfl rfl).2.1,
   ((attribution_sums_to_100 0 0).2.2.2.2 rfl rfl).2.2,
   (attribution_sums_to_100 2 3).1⟩

end MeetingAgent

namespace Linkup

/-- Provider result object as consumed by `LinkupWrapper.search`: each
attribute either present (`some`) or absent (`none`), matching the
`getattr`/`hasattr` duck typing in the Python code. -/
structure ProviderResult where
  name : Option String
  title : Option String
  url : Option String
  snippet : Option String
  content : Option String
  deriving DecidableEq, Repr

/-- Normalized source record built by `LinkupWrapper.search`
(`linkup_wrapper.py`, lines 43-53). -/
structure SourceItem where
  title : String
  url : String
  snippet : String
  relevance : ℕ
  deriving DecidableEq, Repr

/-- Python `s[:200]`: keep the first 200 characters. -/
def pyTake200 (s : String) : String :=
  ⟨s.data.take 200⟩

/-- Field mapping for one provider result at 0-based position `i`
(lines 45-52): title is `name` if truthy else `title`; snippet is the
`snippet` attribute when it exists — even when empty — else `content`,
truncated to 200 characters; relevance is the 1-based arrival position. -/
def formatResult (i : ℕ) (r : ProviderResult) : SourceItem where
  title :=
    let nm := r.name.getD ""
    if nm ≠ "" then nm else r.title.getD ""
  url := r.url.getD ""
  snippet :=
    pyTake200 (match r.snippet with
      | some s => s
      | none => r.content.getD "")
  relevance := i + 1

/-- `LinkupWrapper.search` success path (lines 33-59): map the first
`max_results` provider results onto source records in arrival order.  The
provider call itself is an explicit argument (the list it returned); the
exception path returns `sources = []` with an error string and is not
needed for the mapping claim. -/
def search (results : List ProviderResult) (max_results : ℕ) :
    List SourceItem :=
  ((results.take max_results).enum).map (fun p => formatResult p.1 p.2)

end Linkup

namespace Linkup

/-- C7 counterexample: for a provider result carrying both a `snippet`
attribute and a `content` attribute, `search` keeps the `snippet` value —
the `content`-before-`snippet` priority stated for the snippet field does
not hold (the code reads `getattr(result, "snippet", getattr(result,
"content", ""))`, so `content` is only consulted when the `snippet`
attribute is absent). -/
theorem search_snippet_priority_counterexample :
    search [{ name := some "Acme Ventures", title := some "Acme homepage",
              url := some "https://acme.example", snippet := some "from snippet field",
              content := some "from content field" }] 5 =
      [{ title := "Acme Ventures", url := "https://acme.example",
         snippet := "from snippet field", relevance := 1 }] ∧
    "from snippet field" ≠ "from content field" := by
  constructor
  · rfl
  · decide

/-- C7 amended: `search` returns at most `max_results` records; each
record's title uses the provider field `name` when non-empty and falls
back to `title`; each record's snippet uses the provider field `snippet`
when that attribute exists (falling back to `content` only when it is
absent) and is truncated to 200 characters; and each record's relevance
rank is its 1-based arrival position, preserving the provider's ordering
without re-sorting. -/
theorem search_normalization_amended (results : List ProviderResult)
    (max_results : ℕ) :
    (search results max_results).length = min max_results results.length ∧
    ∀ (i : ℕ) (hi : i < (search results max_results).length),
      ∃ (hr : i < results.length),
        (search results max_results)[i] =
          { title :=
              (if results[i].name.getD "" ≠ "" then results[i].name.getD ""
               else results[i].title.getD ""),
            url := results[i].url.getD "",
            snippet :=
              pyTake200 (match results[i].snippet with
                | some s => s
                | none => results[i].content.getD ""),
            relevance := i + 1 } := by
  have hlen : (search results max_results).length = min max_results results.length := by
    simp [search]
  refine ⟨hlen, fun i hi => ?_⟩
  have hr : i < results.length := by
    rw [hlen] at hi
    omega
  have ht : i < (results.take max_results).length := by
    simp only [List.length_take]
    rw [hlen] at hi
    omega
  refine ⟨hr, ?_⟩
  simp only [search, List.getElem_map, List.getElem_enum, List.getElem_take,
    formatResult]

/-- C7 witness: the amended statement evaluated on a two-result provider
reply with `max_results = 1`. -/
theorem search_normalization_amended_witness :
    (search [{ name := none, title := some "T1", url := some "u1",
               snippet := none, content := some "body text" },
             { name := some "N2", title := some "T2", url := some "u2",
               snippet := some "s2", content := none }] 1).length = 1 ∧
    (search [{ name := none, title := some "T1", url := some "u1",
               snippet := none, content := some "body text" },
             { name := some "N2", title := some "T2", url := some "u2",
               snippet := some "s2", content := none }] 1) =
      [{ title := "T1", url := "u1", snippet := "body text", relevance := 1 }] := by
  have h := search_normalization_amended
    [{ name := none, title := some "T1", url := some "u1",
       snippet := none, content := some "body text" },
     { name := some "N2", title := some "T2", url := some "u2",
       snippet := some "s2", content := none }] 1
  refine ⟨h.1, ?_⟩
  rfl

end Linkup

/-- Association-list lookup with Python-dict reading semantics:
`d.get(k)` as an `Option`. -/
def dictLookup {α : Type} (d : List (String × α)) (k : String) : Option α :=
  (d.find? (fun kv => kv.1 = k)).map (fun kv => kv.2)

/-- Python-dict assignment `d[k] = v`: overwrite in place when the key is
present, append otherwise (insertion order preserved). -/
def dictInsert {α : Type} (d : List (String × α)) (k : String) (v : α) :
    List (String × α) :=
  if d.any (fun kv => kv.1 = k) then
    d.map (fun kv => if kv.1 = k then (k, v) else kv)
  else
    d ++ [(k, v)]

/-- Cons step of `dictLookup`: check the head binding first. -/
theorem dictLookup_cons {α : Type} (a : String × α) (l : List (String × α))
    (k : String) :
    dictLookup (a :: l) k = if a.1 = k then some a.2 else dictLookup l k := by
  unfold dictLookup
  by_cases h : a.1 = k
  · rw [List.find?_cons_of_pos _ (by simpa using h)]
    simp [h]
  · rw [List.find?_cons_of_neg _ (by simpa using h)]
    simp [h]

/-- Replacing the value at `k` in place does not change lookups of other
keys. -/
theorem dictLookup_map_replace {α : Type} (d : List (String × α))
    (k k' : String) (v : α) (hne : k' ≠ k) :
    dictLookup (d.map (fun kv => if kv.1 = k then (k, v) else kv)) k' =
      dictLookup d k' := by
  induction d with
  | nil => rfl
  | cons a l ih =>
    by_cases ha : a.1 = k
    · simp [dictLookup_cons, ha, Ne.symm hne, ih]
    · by_cases ha' : a.1 = k'
      · rw [List.map_cons, if_neg ha, dictLookup_cons, dictLookup_cons,
          if_pos ha', if_pos ha']
      · rw [List.map_cons, if_neg ha, dictLookup_cons, dictLookup_cons,
          if_neg ha', if_neg ha', ih]

/-- Replacing the value at a present key `k` in place makes `k` read back
the new value. -/
theorem dictLookup_map_replace_self {α : Type} (d : List (String × α))
    (k : String) (v : α) (hany : d.any (fun kv => kv.1 = k) = true) :
    dictLookup (d.map (fun kv => if kv.1 = k then (k, v) else kv)) k =
      some v := by
  induction d with
  | nil => simp at hany
  | cons a l ih =>
    by_cases ha : a.1 = k
    · simp [dictLookup_cons, ha]
    · have hl : l.any (fun kv => kv.1 = k) = true := by
        simp only [List.any_cons, ha] at hany
        simpa using hany
      simp [dictLookup_cons, ha, ih hl]

/-- Appending a fresh binding does not change lookups of other keys. -/
theorem dictLookup_append_single {α : Type} (d : List (String × α))
    (k k' : String) (v : α) (hne : k' ≠ k) :
    dictLookup (d ++ [(k, v)]) k' = dictLookup d k' := by
  induction d with
  | nil => simp [dictLookup_cons, Ne.symm hne, dictLookup]
  | cons a l ih =>
    by_cases ha' : a.1 = k'
    · simp [dictLookup_cons, ha']
    · simp [dictLookup_cons, ha', ih]

/-- Appending a binding makes its key read back the value when the key was
absent. -/
theorem dictLookup_append_self {α : Type} (d : List (String × α))
    (k : String) (v : α) (hnone : d.any (fun kv => kv.1 = k) = false) :
    dictLookup (d ++ [(k, v)]) k = some v := by
  induction d with
  | nil => simp [dictLookup_cons]
  | cons a l ih =>
    have ha : ¬(a.1 = k) := by
      intro hh
      simp [List.any_cons, hh] at hnone
    have hl : l.any (fun kv => kv.1 = k) = false := by
      simp only [List.any_cons] at hnone
      simpa using (Bool.or_eq_false_iff.mp hnone).2
    simp [dictLookup_cons, ha, ih hl]

/-- Looking up the key just written returns the written value. -/
theorem dictLookup_insert_self {α : Type} (d : List (String × α)) (k : String)
    (v : α) : dictLookup (dictInsert d k v) k = some v := by
  unfold dictInsert
  by_cases h : d.any (fun kv => kv.1 = k) = true
  · rw [if_pos h]
    exact dictLookup_map_replace_self d k v h
  · rw [if_neg h]
    exact dictLookup_append_self d k v (Bool.eq_false_iff.mpr h)

/-- Writing one key leaves lookups of other keys unchanged. -/
theorem dictLookup_insert_other {α : Type} (d : List (String × α))
    (k k' : String) (v : α) (hne : k' ≠ k) :
    dictLookup (dictInsert d k v) k' = dictLookup d k' := by
  unfold dictInsert
  by_cases h : d.any (fun kv => kv.1 = k) = true
  · rw [if_pos h]
    exact dictLookup_map_replace d k k' v hne
  · rw [if_neg h]
    exact dictLookup_append_single d k k' v hne

/-- Folding writes of `f k` for each key in `l` over a starting dict: keys
in `l` read back their own `f` value, others are untouched. -/
theorem dictLookup_foldl_insert {α : Type} (f : String → α) (l : List String)
    (d : List (String × α)) (sc : String) :
    dictLookup (l.foldl (fun acc k => dictInsert acc k (f k)) d) sc =
      if sc ∈ l then some (f sc) else dictLookup d sc := by
  induction l generalizing d with
  | nil => simp
  | cons a l ih =>
    simp only [List.foldl_cons, ih (dictInsert d a (f a))]
    by_cases hmem : sc ∈ l
    · simp [hmem, List.mem_cons]
    · by_cases hsa : sc = a
      · subst hsa
        simp [hmem, dictLookup_insert_self]
      · simp [hmem, hsa, dictLookup_insert_other d a sc (f a) hsa]

namespace Orchestrator

/-- One reasoning step of the result envelope
(`orchestrator.py`, `_error_result`, line 201). -/
structure ReasoningStep where
  step : ℕ
  action : String
  detail : String
  status : String
  deriving DecidableEq, Repr

/-- Per-scenario result envelope: the keys `_error_result` installs
(lines 198-213); success results from the agents populate the same
envelope shape. -/
structure ScenarioResult where
  reasoning_steps : List ReasoningStep
  linkup_sources : List Json
  result : String
  briefing_data : Json
  confidence : ℚ
  execution_time : ℚ
  source_attribution : Json
  deriving Repr

/-- `_error_result` (lines 198-213): the fixed error-shaped envelope with
`confidence = 0.0`. -/
def errorResult (message : String) : ScenarioResult where
  reasoning_steps := [⟨1, "Error", message, "error"⟩]
  linkup_sources := []
  result := "Error: " ++ message
  briefing_data := .obj []
  confidence := 0
  execution_time := 0
  source_attribution := .obj
    [("memory_pct", .num 0), ("linkup_pct", .num 0), ("llm_pct", .num 100),
     ("memory_interactions", .num 0), ("linkup_sources_count", .num 0),
     ("data_freshness", .str "N/A"), ("sections", .obj []),
     ("verification_status", .str "Unverified")]

/-- Dispatch ladder of `process` (lines 152-160): known scenarios go to
their agent handler — an external collaborator passed in as `handler`,
whose `.error` outcome models the handler raising — and an unknown
scenario raises `ValueError`. -/
def processAttempt (handler : String → Json → Except String ScenarioResult)
    (scenario : String) (input_data : Json) : Except String ScenarioResult :=
  if scenario = "email" ∨ scenario = "document" ∨ scenario = "meeting" then
    handler scenario input_data
  else
    .error ("Unknown scenario: " ++ scenario)

/-- `process` (lines 149-166): run the dispatch ladder inside
`try/except`, converting any raise into `_error_result`, and stamp the
elapsed wall-clock time (modelled by `elapsed`) on either outcome. -/
def process (handler : String → Json → Except String ScenarioResult)
    (elapsed : ℚ) (scenario : String) (input_data : Json) : ScenarioResult :=
  match processAttempt handler scenario input_data with
  | .ok r => { r with execution_time := elapsed }
  | .error e => { errorResult e with execution_time := elapsed }

/-- Results dict built by the `route` loop (lines 114-120): one
`process`/`_error_result` entry per classified scenario, in scenario
order, with Python-dict assignment semantics.  The `try/except` around
`self.process` in `route` is subsumed by the one inside `process` itself:
in the model `process` is total, so the per-scenario conversion of a raise
into an error envelope is the `processAttempt` match. -/
def routeResults (handler : String → Json → Except String ScenarioResult)
    (elapsed : ℚ) (scenarios : List String) (params : String → Json) :
    List (String × ScenarioResult) :=
  scenarios.foldl
    (fun acc scenario =>
      dictInsert acc scenario (process handler elapsed scenario (params scenario)))
    []

/-- C5: every scenario of the router classification receives an entry in
the results dict — regardless of how the handlers behave on the other
scenarios — and whenever a scenario's processing raises (handler error or
unknown scenario), its entry is the error envelope with the same shape as
success: the fixed `reasoning_steps`, an `Error:` `result` string, and
`confidence = 0.0`. -/
theorem route_isolates_scenario_failures
    (handler : String → Json → Except String ScenarioResult) (elapsed : ℚ)
    (scenarios : List String) (params : String → Json) (scenario : String)
    (hmem : scenario ∈ scenarios) :
    dictLookup (routeResults handler elapsed scenarios params) scenario =
      some (process handler elapsed scenario (params scenario)) ∧
    ∀ e, processAttempt handler scenario (params scenario) = .error e →
      (process handler elapsed scenario (params scenario)).confidence = 0 ∧
      (process handler elapsed scenario (params scenario)).result =
        "Error: " ++ e ∧
      (process handler elapsed scenario (params scenario)).reasoning_steps =
        [⟨1, "Error", e, "error"⟩] ∧
      (process handler elapsed scenario (params scenario)).linkup_sources =
        [] := by
  constructor
  · rw [routeResults, dictLookup_foldl_insert
      (fun k => process handler elapsed k (params k)) scenarios [] scenario]
    simp [hmem]
  · intro e he
    simp [process, he, errorResult]

/-- C5 witness: the "email" handler raising leaves the "meeting" entry
intact and installs the error envelope for "email". -/
theorem route_isolates_scenario_failures_witness :
    dictLookup
        (routeResults
          (fun scenario _ =>
            if scenario = "email" then .error "boom"
            else .ok (errorResult "placeholder"))
          0 ["meeting", "email"] (fun _ => .obj []))
        "email" =
      some (process
        (fun scenario _ =>
          if scenario = "email" then .error "boom"
          else .ok (errorResult "placeholder"))
        0 "email" (.obj [])) ∧
    (process
        (fun scenario _ =>
          if scenario = "email" then .error "boom"
          else .ok (errorResult "placeholder"))
        0 "email" (.obj [])).confidence = 0 ∧
    (process
        (fun scenario _ =>
          if scenario = "email" then .error "boom"
          else .ok (errorResult "placeholder"))
        0 "email" (.obj [])).result = "Error: " ++ "boom" := by
  have h := route_isolates_scenario_failures
    (fun scenario _ =>
      if scenario = "email" then .error "boom"
      else .ok (errorResult "placeholder"))
    0 ["meeting", "email"] (fun _ => .obj []) "email" (by decide)
  have he := h.2 "boom" (by rfl)
  exact ⟨h.1, he.1, he.2.1⟩

end Orchestrator

/-- Python `s[:n]`: keep the first `n` characters. -/
def pyTakeChars (s : String) (n : ℕ) : String :=
  ⟨s.data.take n⟩

/-- Python `s[a:b]` for non-negative bounds: characters from `a` up to
(excluding) `b`. -/
def pySlice (s : String) (a b : ℕ) : String :=
  ⟨(s.data.take b).drop a⟩

/-- Python `sep.join(xs)`. -/
def pyJoin (sep : String) (xs : List String) : String :=
  ⟨List.intercalate sep.data (xs.map String.data)⟩

/-- Python `s.find(c)` for a single character, as an `Option` instead of
the `-1` sentinel. -/
def pyFindChar (s : String) (c : Char) : Option ℕ :=
  s.data.findIdx? (fun ch => ch = c)

/-- Python `s.rfind(c)` for a single character, as an `Option` instead of
the `-1` sentinel. -/
def pyRFindChar (s : String) (c : Char) : Option ℕ :=
  match s.data.reverse.findIdx? (fun ch => ch = c) with
  | some i => some (s.data.length - 1 - i)
  | none => none

namespace MeetingAgent

/-- Fuel-driven worker for `removeTrailingCommas`, performing the global,
non-overlapping, left-to-right substitution of the regex
`,\s*([}\]])` by the captured bracket. -/
def removeTrailingCommasAux (fuel : ℕ) (s : List Char) : List Char :=
  match fuel, s with
  | 0, rest => rest
  | _ + 1, [] => []
  | fuel + 1, c :: rest =>
    if c = ',' then
      match rest.dropWhile (fun ch => ch.isWhitespace) with
      | b :: rest' =>
        if b = '}' ∨ b = ']' then b :: removeTrailingCommasAux fuel rest'
        else c :: removeTrailingCommasAux fuel rest
      | [] => c :: removeTrailingCommasAux fuel rest
    else c :: removeTrailingCommasAux fuel rest

/-- First repair of `_parse_briefing_json` step three (line 460): drop a
comma followed only by whitespace before a closing `}` or `]`. -/
def removeTrailingCommas (s : String) : String :=
  ⟨removeTrailingCommasAux s.data.length s.data⟩

/-- Fence cleanup shared by step one and step four of
`_parse_briefing_json` (lines 433-439 and 477-480): strip, and when the
text starts with a code fence, delete every line whose stripped form
starts with one. -/
def cleanFences (content : String) : String :=
  let cleaned := pyStrip content
  if pyStartsWith cleaned "```" then
    pyJoin "\n" ((pySplitOn cleaned "\n").filter
      (fun l => !(pyStartsWith (pyStrip l) "```")))
  else cleaned

/-- Input of the second parse attempt (lines 447-454): the outermost
brace span, only when the last `}` comes strictly after the first `{`. -/
def stage2Input (cleaned : String) : Option String :=
  match pyFindChar cleaned '{', pyRFindChar cleaned '}' with
  | some s, some e => if s < e then some (pySlice cleaned s (e + 1)) else none
  | _, _ => none

/-- Input of the third parse attempt (lines 456-466): the same span —
this step only requires both braces to exist, not their order — with
trailing commas removed and every newline escaped, in that order. -/
def stage3Input (cleaned : String) : Option String :=
  match pyFindChar cleaned '{', pyRFindChar cleaned '}' with
  | some s, some e =>
    some (pyReplace (removeTrailingCommas (pySlice cleaned s (e + 1)))
      "\n" "\\n")
  | _, _ => none

/-- Input of the fourth parse attempt (lines 468-484): one corrective LLM
round-trip on the first 2000 characters of the raw reply; `.error` models
the chat call raising, `none` content the `or ''` fallback.  Its reply is
fence-cleaned and cut to its outermost brace span (no order requirement). -/
def stage4Input (llmFix : String → Except String (Option String))
    (content : String) : Option String :=
  match llmFix (pyTakeChars content 2000) with
  | .error _ => none
  | .ok copt =>
    let fc := cleanFences (copt.getD "")
    match pyFindChar fc '{', pyRFindChar fc '}' with
    | some fs, some fe => some (pySlice fc fs (fe + 1))
    | _, _ => none

/-- Typed empty object returned when every stage fails (lines 490-496). -/
def emptyBriefing : Json :=
  .obj [("company_overview", .str ""), ("past_context", .str ""),
    ("recent_news", .str ""), ("talking_points", .arr []),
    ("risks_and_notes", .str "")]

/-- `_parse_briefing_json` (lines 431-496): the strictly ordered cascade,
stopping at the first stage whose `json.loads` call (modelled by
`jloads`, `none` for a raised `JSONDecodeError`) succeeds. -/
def parseBriefingJson (jloads : String → Option Json)
    (llmFix : String → Except String (Option String)) (content : String) :
    Json :=
  let cleaned := cleanFences content
  match jloads cleaned with
  | some j => j
  | none =>
    match (stage2Input cleaned).bind jloads with
    | some j => j
    | none =>
      match (stage3Input cleaned).bind jloads with
      | some j => j
      | none =>
        match (stage4Input llmFix content).bind jloads with
        | some j => j
        | none => emptyBriefing

/-- C2: for every input string and every behaviour of the JSON parser and
of the corrective LLM round-trip, `_parse_briefing_json` returns either a
value the parser produced or the typed empty object (it is a total
function, so it never raises), and the stages run in the fixed order
fence-strip-and-direct-parse, brace-span parse, syntactic repairs, LLM
round-trip, empty default, stopping at the first success. -/
theorem parse_briefing_json_total_cascade (jloads : String → Option Json)
    (llmFix : String → Except String (Option String)) (content : String) :
    ((∃ s, jloads s = some (parseBriefingJson jloads llmFix content)) ∨
      parseBriefingJson jloads llmFix content = emptyBriefing) ∧
    (∀ j, jloads (cleanFences content) = some j →
      parseBriefingJson jloads llmFix content = j) ∧
    (jloads (cleanFences content) = none →
      ∀ j, (stage2Input (cleanFences content)).bind jloads = some j →
        parseBriefingJson jloads llmFix content = j) ∧
    (jloads (cleanFences content) = none →
      (stage2Input (cleanFences content)).bind jloads = none →
      ∀ j, (stage3Input (cleanFences content)).bind jloads = some j →
        parseBriefingJson jloads llmFix content = j) ∧
    (jloads (cleanFences content) = none →
      (stage2Input (cleanFences content)).bind jloads = none →
      (stage3Input (cleanFences content)).bind jloads = none →
      ∀ j, (stage4Input llmFix content).bind jloads = some j →
        parseBriefingJson jloads llmFix content = j) ∧
    (jloads (cleanFences content) = none →
      (stage2Input (cleanFences content)).bind jloads = none →
      (stage3Input (cleanFences content)).bind jloads = none →
      (stage4Input llmFix content).bind jloads = none →
      parseBriefingJson jloads llmFix content = emptyBriefing) := by
  refine ⟨?_, ?_, ?_, ?_, ?_, ?_⟩
  · rcases h1 : jloads (cleanFences content) with _ | j1
    · rcases h2 : (stage2Input (cleanFences content)).bind jloads with _ | j2
      · rcases h3 : (stage3Input (cleanFences content)).bind jloads with _ | j3
        · rcases h4 : (stage4Input llmFix content).bind jloads with _ | j4
          · right
            simp [parseBriefingJson, h1, h2, h3, h4]
          · left
            have hr : parseBriefingJson jloads llmFix content = j4 := by
              simp [parseBriefingJson, h1, h2, h3, h4]
            obtain ⟨s, _, hjs⟩ := Option.bind_eq_some.mp h4
            exact ⟨s, by rw [hr]; exact hjs⟩
        · left
          have hr : parseBriefingJson jloads llmFix content = j3 := by
            simp [parseBriefingJson, h1, h2, h3]
          obtain ⟨s, _, hjs⟩ := Option.bind_eq_some.mp h3
          exact ⟨s, by rw [hr]; exact hjs⟩
      · left
        have hr : parseBriefingJson jloads llmFix content = j2 := by
          simp [parseBriefingJson, h1, h2]
        obtain ⟨s, _, hjs⟩ := Option.bind_eq_some.mp h2
        exact ⟨s, by rw [hr]; exact hjs⟩
    · left
      have hr : parseBriefingJson jloads llmFix content = j1 := by
        simp [parseBriefingJson, h1]
      exact ⟨cleanFences content, by rw [hr]; exact h1⟩
  · intro j h1
    simp [parseBriefingJson, h1]
  · intro h1 j h2
    simp [parseBriefingJson, h1, h2]
  · intro h1 h2 j h3
    simp [parseBriefingJson, h1, h2, h3]
  · intro h1 h2 h3 j h4
    simp [parseBriefingJson, h1, h2, h3, h4]
  · intro h1 h2 h3 h4
    simp [parseBriefingJson, h1, h2, h3, h4]

/-- C2 witness: with a parser that rejects everything and a failing LLM
round-trip, a malformed reply falls through every stage to the typed
empty object. -/
theorem parse_briefing_json_total_cascade_witness :
    parseBriefingJson (fun _ => none) (fun _ => .error "chat raised")
      "definitely not json" = emptyBriefing :=
  (parse_briefing_json_total_cascade (fun _ => none)
    (fun _ => .error "chat raised")
    "definitely not json").2.2.2.2.2 rfl rfl rfl rfl

end MeetingAgent

/-- Python object as handled by `_sanitize` in `session_store.py`
(lines 156-168): JSON-serializable shapes plus an opaque non-serializable
object carrying its `str()` rendering. -/
inductive PyObj where
  | dict (fields : List (String × PyObj))
  | list (items : List PyObj)
  | str (s : String)
  | int (n : ℤ)
  | float (q : ℚ)
  | bool (b : Bool)
  | none : PyObj
  | other (rendering : String)
  deriving Repr

mutual

/-- `_sanitize` (lines 156-168): recursively convert non-serializable
values to strings, leaving serializable ones untouched (tuples arrive as
`.list`). -/
def sanitize : PyObj → PyObj
  | .dict fields => .dict (sanitizeFields fields)
  | .list items => .list (sanitizeItems items)
  | .str s => .str s
  | .int n => .int n
  | .float q => .float q
  | .bool b => .bool b
  | .none => .none
  | .other r => .str r

/-- Worker of `sanitize` for dict entries. -/
def sanitizeFields : List (String × PyObj) → List (String × PyObj)
  | [] => []
  | (k, v) :: rest => (k, sanitize v) :: sanitizeFields rest

/-- Worker of `sanitize` for list items. -/
def sanitizeItems : List PyObj → List PyObj
  | [] => []
  | v :: rest => sanitize v :: sanitizeItems rest

end

namespace SessionStore

/-- One logged interaction (`session_store.py`, lines 69-76). -/
structure Interaction where
  id : ℕ
  timestamp : String
  user_query : String
  route : PyObj
  results : PyObj
  execution_time : ℚ
  deriving Repr

/-- One session file (lines 39-45). -/
structure Session where
  session_id : String
  created_at : String
  updated_at : String
  title : String
  interactions : List Interaction
  deriving Repr

/-- The sessions directory: one JSON file per session id.  File-system
reads and writes become lookups and inserts in this keyed store. -/
abbrev Store := List (String × Session)

/-- Session update performed by `SessionStore.append` on an existing
session (lines 68-83): build the interaction with the next 1-based
ordinal, push it, refresh `updated_at`, and auto-title from the first
query when the title is still the default. -/
def updatedSession (session : Session) (user_query : String)
    (route results : PyObj) (execution_time : ℚ) (now : String) : Session :=
  let interaction_num := session.interactions.length + 1
  let interaction : Interaction :=
    { id := interaction_num, timestamp := now, user_query := user_query,
      route := sanitize route, results := sanitize results,
      execution_time := execution_time }
  let session' :=
    { session with
        interactions := session.interactions ++ [interaction],
        updated_at := now }
  if interaction_num = 1 ∧ pyStartsWith session'.title "Session " then
    { session' with title := pyTakeChars user_query 80 }
  else session'

/-- `SessionStore.append` (lines 49-86).  `_load` returning `None` for a
missing file becomes a failed lookup and the raised `ValueError` the
`.error` outcome; on success the new store and the 1-based interaction
number are returned.  `datetime.now().isoformat()` is the explicit `now`
argument. -/
def append (store : Store) (session_id user_query : String)
    (route results : PyObj) (execution_time : Rat) (now : String) :
    Except String (Store × Nat) :=
  match dictLookup store session_id with
  | Option.none => .error ("Session " ++ session_id ++ " not found")
  | some session =>
    .ok (dictInsert store session_id
        (updatedSession session user_query route results execution_time now),
      session.interactions.length + 1)

/-- The session update appends exactly the one new interaction. -/
theorem updatedSession_interactions (session : Session) (user_query : String)
    (route results : PyObj) (execution_time : Rat) (now : String) :
    (updatedSession session user_query route results execution_time
        now).interactions =
      session.interactions ++
        [{ id := session.interactions.length + 1, timestamp := now,
           user_query := user_query, route := sanitize route,
           results := sanitize results,
           execution_time := execution_time }] := by
  simp only [updatedSession]
  split <;> rfl

/-- C10: appending to a missing session raises `ValueError` and produces
no store; appending to an existing session adds exactly one interaction
at the end — previously stored interactions and all other sessions
unchanged — and returns the new interaction count. -/
theorem append_spec (store : Store) (session_id user_query : String)
    (route results : PyObj) (execution_time : ℚ) (now : String) :
    (dictLookup store session_id = Option.none →
      append store session_id user_query route results execution_time now =
        .error ("Session " ++ session_id ++ " not found")) ∧
    (∀ session, dictLookup store session_id = some session →
      append store session_id user_query route results execution_time now =
        .ok (dictInsert store session_id
            (updatedSession session user_query route results execution_time
              now),
          session.interactions.length + 1) ∧
      dictLookup
          (dictInsert store session_id
            (updatedSession session user_query route results execution_time
              now))
          session_id =
        some (updatedSession session user_query route results execution_time
          now) ∧
      (updatedSession session user_query route results execution_time
          now).interactions =
        session.interactions ++
          [{ id := session.interactions.length + 1, timestamp := now,
             user_query := user_query, route := sanitize route,
             results := sanitize results,
             execution_time := execution_time }] ∧
      (∀ other_id, other_id ≠ session_id →
        dictLookup
            (dictInsert store session_id
              (updatedSession session user_query route results execution_time
                now))
            other_id =
          dictLookup store other_id)) := by
  refine ⟨fun hnone => by simp [append, hnone], fun session hfound => ?_⟩
  refine ⟨by simp [append, hfound], dictLookup_insert_self _ _ _,
    updatedSession_interactions session user_query route results
      execution_time now,
    fun other_id hne => dictLookup_insert_other _ _ _ _ hne⟩

/-- C10 witness: appending to the missing id "ghost" errors; appending to
the stored session "s1" (one interaction) returns ordinal 2 and appends
the new interaction after the old one. -/
theorem append_spec_witness :
    append
        [("s1",
          { session_id := "s1", created_at := "t0", updated_at := "t0",
            title := "Session s1",
            interactions :=
              [{ id := 1, timestamp := "t0", user_query := "hi",
                 route := .dict [], results := .dict [],
                 execution_time := 0 }] })]
        "ghost" "query" (.dict []) (.dict []) 0 "t1" =
      .error ("Session " ++ "ghost" ++ " not found") ∧
    (updatedSession
        { session_id := "s1", created_at := "t0", updated_at := "t0",
          title := "Session s1",
          interactions :=
            [{ id := 1, timestamp := "t0", user_query := "hi",
               route := .dict [], results := .dict [],
               execution_time := 0 }] }
        "query" (.dict []) (.dict []) 0 "t1").interactions =
      [{ id := 1, timestamp := "t0", user_query := "hi", route := .dict [],
         results := .dict [], execution_time := 0 },
       { id := 2, timestamp := "t1", user_query := "query",
         route := sanitize (.dict []), results := sanitize (.dict []),
         execution_time := 0 }] := by
  constructor
  · exact (append_spec _ "ghost" "query" (.dict []) (.dict []) 0 "t1").1 rfl
  · exact ((append_spec
      [("s1",
        { session_id := "s1", created_at := "t0", updated_at := "t0",
          title := "Session s1",
          interactions :=
            [{ id := 1, timestamp := "t0", user_query := "hi",
               route := .dict [], results := .dict [],
               execution_time := 0 }] })]
      "s1" "query" (.dict []) (.dict []) 0 "t1").2
      { session_id := "s1", created_at := "t0", updated_at := "t0",
        title := "Session s1",
        interactions :=
          [{ id := 1, timestamp := "t0", user_query := "hi",
             route := .dict [], results := .dict [],
             execution_time := 0 }] }
      rfl).2.2.1

end SessionStore

namespace MemoryStore

/-- Value found in the `date`/`timestamp` field of a cached record:
Python `int`/`float` collapse to an exact rational, everything else the
code handles is a string. -/
inductive RawVal where
  | num (q : ℚ)
  | str (s : String)
  deriving DecidableEq, Repr

/-- Python truthiness of a field value: zero and the empty string are
falsy. -/
def truthyRaw : RawVal → Bool
  | .num q => q ≠ 0
  | .str s => s ≠ ""

/-- Cached interaction record as consumed by `_parse_datetime` and
`_sort_by_date` (`store.py`): only the `date` and `timestamp` fields are
read; every other field travels along untouched in `payload`. -/
structure MRecord where
  date : Option RawVal
  timestamp : Option RawVal
  payload : String
  deriving DecidableEq, Repr

/-- Python `datetime` value: the wall-clock reading in microseconds (with
the epoch at 1970-01-01T00:00:00, datetime resolution is exactly one
microsecond) plus the `tzinfo` offset in seconds east of UTC, `none` for
naive values.  Two naive values compare by wall clock, two aware values
by UTC instant, and a naive/aware comparison raises `TypeError`. -/
structure PyDateTime where
  value : ℤ
  tzoffset : Option ℤ
  deriving DecidableEq, Repr

/-- `datetime.min` = 0001-01-01T00:00:00, naive; its wall-clock reading
relative to the epoch is -719162 days. -/
def pyDatetimeMin : PyDateTime :=
  ⟨-62135596800000000, Option.none⟩

/-- Comparison key of a datetime under Python's ordering: wall clock for
naive values, UTC instant for aware ones.  Only meaningful between values
of equal awareness. -/
def dtKey (d : PyDateTime) : ℤ :=
  match d.tzoffset with
  | Option.none => d.value
  | some off => d.value - off * 1000000

/-- `datetime.fromtimestamp` on a microsecond count (naive local time,
modelled with a UTC locale): defined on the timestamps of years 1..9999,
raising — `none` — outside, matching the `OSError`/`ValueError` the code
catches. -/
def pyFromTimestampMicro (micro : ℤ) : Option PyDateTime :=
  if -62135596800000000 ≤ micro ∧ micro ≤ 253402300799999999 then
    some ⟨micro, Option.none⟩
  else Option.none

/-- Microsecond count of a rational number of seconds (exact for every
value a Python float can hold up to datetime resolution; a
sub-microsecond remainder is truncated). -/
def ratToMicro (q : ℚ) : ℤ :=
  (q.num * 1000000) / (q.den : ℤ)

/-- Python `raw > 10**11` on an exact rational. -/
def ratGtE11 (q : ℚ) : Bool :=
  decide ((10 : ℤ) ^ 11 * (q.den : ℤ) < q.num)

/-- Gregorian leap-year test. -/
def isLeap (y : ℕ) : Bool :=
  (y % 4 = 0 ∧ y % 100 ≠ 0) ∨ y % 400 = 0

/-- Number of days of a month. -/
def daysInMonth (y mo : ℕ) : ℕ :=
  if mo = 2 then (if isLeap y then 29 else 28)
  else if mo = 4 ∨ mo = 6 ∨ mo = 9 ∨ mo = 11 then 30
  else 31

/-- Days from the epoch 1970-01-01 to the civil date `y-mo-d` (standard
civil-from-days arithmetic; all intermediate quantities are non-negative
for years ≥ 1). -/
def daysFromCivil (y mo d : ℕ) : ℤ :=
  let yy : ℤ := if mo ≤ 2 then (y : ℤ) - 1 else (y : ℤ)
  let era : ℤ := yy / 400
  let yoe : ℤ := yy - era * 400
  let mp : ℤ := ((mo : ℤ) + 9) % 12
  let doy : ℤ := (153 * mp + 2) / 5 + (d : ℤ) - 1
  let doe : ℤ := yoe * 365 + yoe / 4 - yoe / 100 + doy
  era * 146097 + doe - 719468

/-- Numeric value of a digit list. -/
def digitsToNat (cs : List Char) : ℕ :=
  cs.foldl (fun acc c => acc * 10 + (c.toNat - 48)) 0

/-- Time-of-day part of an ISO string: `HH:MM`, `HH:MM:SS` or
`HH:MM:SS.ffffff`, in microseconds. -/
def parseTimePart (cs : List Char) : Option ℤ :=
  match cs with
  | [h1, h2, ':', m1, m2] =>
    if [h1, h2, m1, m2].all Char.isDigit ∧
        digitsToNat [h1, h2] < 24 ∧ digitsToNat [m1, m2] < 60 then
      some ((digitsToNat [h1, h2] * 3600 + digitsToNat [m1, m2] * 60) *
        1000000)
    else Option.none
  | [h1, h2, ':', m1, m2, ':', s1, s2] =>
    if [h1, h2, m1, m2, s1, s2].all Char.isDigit ∧
        digitsToNat [h1, h2] < 24 ∧ digitsToNat [m1, m2] < 60 ∧
        digitsToNat [s1, s2] < 60 then
      some ((digitsToNat [h1, h2] * 3600 + digitsToNat [m1, m2] * 60 +
        digitsToNat [s1, s2]) * 1000000)
    else Option.none
  | h1 :: h2 :: ':' :: m1 :: m2 :: ':' :: s1 :: s2 :: '.' :: frac =>
    if [h1, h2, m1, m2, s1, s2].all Char.isDigit ∧ frac.all Char.isDigit ∧
        frac ≠ [] ∧ frac.length ≤ 6 ∧
        digitsToNat [h1, h2] < 24 ∧ digitsToNat [m1, m2] < 60 ∧
        digitsToNat [s1, s2] < 60 then
      some ((digitsToNat [h1, h2] * 3600 + digitsToNat [m1, m2] * 60 +
        digitsToNat [s1, s2]) * 1000000 +
        digitsToNat frac * 10 ^ (6 - frac.length))
    else Option.none
  | _ => Option.none

/-- UTC-offset part of an ISO string: `±HH:MM`, in signed seconds. -/
def parseOffsetPart (cs : List Char) : Option ℤ :=
  match cs with
  | [sign, h1, h2, ':', m1, m2] =>
    if (sign = '+' ∨ sign = '-') ∧ [h1, h2, m1, m2].all Char.isDigit ∧
        digitsToNat [h1, h2] < 24 ∧ digitsToNat [m1, m2] < 60 then
      let secs : ℤ := digitsToNat [h1, h2] * 3600 + digitsToNat [m1, m2] * 60
      some (if sign = '-' then -secs else secs)
    else Option.none
  | _ => Option.none

/-- `datetime.fromisoformat` on the formats the cached records use:
`YYYY-MM-DD`, optionally a one-character separator and a time of day,
optionally a `±HH:MM` offset (which makes the value aware).  Anything
else — and any out-of-range component, including year 0 — raises
`ValueError`, i.e. `none`. -/
def pyFromIso (s : String) : Option PyDateTime :=
  let cs := s.data
  match cs.take 10 with
  | [a, b, c, d, u, e, f, v, g, h] =>
    if u = '-' ∧ v = '-' ∧ [a, b, c, d, e, f, g, h].all Char.isDigit then
      let y := digitsToNat [a, b, c, d]
      let mo := digitsToNat [e, f]
      let da := digitsToNat [g, h]
      if 1 ≤ y ∧ 1 ≤ mo ∧ mo ≤ 12 ∧ 1 ≤ da ∧ da ≤ daysInMonth y mo then
        let base : ℤ := daysFromCivil y mo da * 86400000000
        match cs.drop 10 with
        | [] => some ⟨base, Option.none⟩
        | _sep :: timecs =>
          match timecs.findIdx? (fun ch => ch = '+' ∨ ch = '-') with
          | Option.none =>
            (parseTimePart timecs).map
              (fun t => ⟨base + t, Option.none⟩)
          | some i =>
            match parseTimePart (timecs.take i),
                parseOffsetPart (timecs.drop i) with
            | some t, some off => some ⟨base + t, some off⟩
            | _, _ => Option.none
      else Option.none
    else Option.none
  | _ => Option.none

/-- Python `str.isdigit()` for the record dates: non-empty and all digits. -/
def isDigitStr (s : String) : Bool :=
  s.data ≠ [] ∧ s.data.all Char.isDigit

/-- `raw = record.get('date') or record.get('timestamp')` (line 78):
fall through to `timestamp` when `date` is absent or falsy. -/
def rawDate (r : MRecord) : Option RawVal :=
  match r.date with
  | some v => if truthyRaw v then some v else r.timestamp
  | Option.none => r.timestamp

/-- `_parse_datetime` (`store.py`, lines 76-96): numbers and digit
strings through `fromtimestamp` with the milliseconds heuristic (the
`raw / 1000` true division is exact at microsecond resolution), other
strings through `fromisoformat` after replacing `Z` with `+00:00`; every
failure returns `None`. -/
def parseDatetime (r : MRecord) : Option PyDateTime :=
  match rawDate r with
  | Option.none => Option.none
  | some v =>
    if truthyRaw v = false then Option.none
    else
      match v with
      | .num q =>
        pyFromTimestampMicro
          (if ratGtE11 q then ratToMicro q / 1000 else ratToMicro q)
      | .str s0 =>
        let s := pyStrip s0
        if isDigitStr s then
          let val : ℕ := digitsToNat s.data
          pyFromTimestampMicro
            (if s.data.length ≥ 12 then (val : ℤ) * 1000
             else (val : ℤ) * 1000000)
        else
          pyFromIso (pyReplace s "Z" "+00:00")

/-- Sort key of `_sort_by_date` (line 177):
`self._parse_datetime(r) or datetime.min`. -/
def recordKey (r : MRecord) : PyDateTime :=
  (parseDatetime r).getD pyDatetimeMin

/-- The condition under which Python's `sorted` raises on this key
function: both an aware and a naive key occur.  CPython's timsort
compares every adjacent pair during run detection, and a key list
contains keys of both kinds exactly when some adjacent pair does, so the
sort raises `TypeError` iff the keys mix awareness. -/
def mixedAwareness (records : List MRecord) : Bool :=
  (records.any (fun r => (recordKey r).tzoffset.isSome)) &&
    (records.any (fun r => (recordKey r).tzoffset.isNone))

/-- Insert a record into a list sorted by descending key, after every
record of greater-or-equal key (stability: later arrivals go after
earlier ties). -/
def insertDesc (r : MRecord) : List MRecord → List MRecord
  | [] => [r]
  | x :: xs =>
    if dtKey (recordKey x) < dtKey (recordKey r) then r :: x :: xs
    else x :: insertDesc r xs

/-- Stable descending sort by key — the unique stable sort, hence exactly
`sorted(records, key=..., reverse=True)` when no comparison raises. -/
def stableSortDesc (records : List MRecord) : List MRecord :=
  records.foldl (fun acc r => insertDesc r acc) []

/-- `_sort_by_date` (lines 174-179): `sorted` with the best-effort key
and `reverse=True`; mixed naive/aware keys raise `TypeError`. -/
def sortByDate (records : List MRecord) : Except String (List MRecord) :=
  if mixedAwareness records then
    .error "TypeError: cannot compare offset-naive and offset-aware datetimes"
  else
    .ok (stableSortDesc records)

end MemoryStore

namespace MemoryStore

/-- Inserting into the sorted prefix is a permutation of pushing in front. -/
theorem insertDesc_perm (r : MRecord) (l : List MRecord) :
    (insertDesc r l).Perm (r :: l) := by
  induction l with
  | nil => exact List.Perm.refl _
  | cons x xs ih =>
    by_cases hc : dtKey (recordKey x) < dtKey (recordKey r)
    · rw [insertDesc, if_pos hc]
    · rw [insertDesc, if_neg hc]
      exact (ih.cons x).trans (List.Perm.swap r x xs)

/-- The stable descending sort permutes its input. -/
theorem stableSortDesc_perm (records : List MRecord) :
    (stableSortDesc records).Perm records := by
  have aux : ∀ (l acc : List MRecord),
      (l.foldl (fun a r => insertDesc r a) acc).Perm (acc ++ l) := by
    intro l
    induction l with
    | nil => intro acc; simp
    | cons r l ih =>
      intro acc
      refine (ih (insertDesc r acc)).trans ?_
      refine (((insertDesc_perm r acc).append_right l).trans ?_)
      simpa using List.perm_middle.symm
  simpa using aux records []

/-- Inserting preserves descending pairwise order. -/
theorem pairwise_insertDesc (r : MRecord) (l : List MRecord)
    (h : List.Pairwise
      (fun a b => dtKey (recordKey b) ≤ dtKey (recordKey a)) l) :
    List.Pairwise (fun a b => dtKey (recordKey b) ≤ dtKey (recordKey a))
      (insertDesc r l) := by
  induction l with
  | nil => simp [insertDesc]
  | cons x xs ih =>
    rcases List.pairwise_cons.mp h with ⟨h1, h2⟩
    by_cases hc : dtKey (recordKey x) < dtKey (recordKey r)
    · rw [insertDesc, if_pos hc]
      refine List.pairwise_cons.mpr ⟨?_, h⟩
      intro y hy
      rcases List.mem_cons.mp hy with hyx | hyxs
      · subst hyx
        exact le_of_lt hc
      · exact (h1 y hyxs).trans (le_of_lt hc)
    · rw [insertDesc, if_neg hc]
      refine List.pairwise_cons.mpr ⟨?_, ih h2⟩
      intro y hy
      rcases List.mem_cons.mp ((insertDesc_perm r xs).mem_iff.mp hy) with
        hyr | hyxs
      · subst hyr
        exact le_of_not_lt hc
      · exact h1 y hyxs

/-- The stable descending sort is sorted: keys are non-increasing. -/
theorem pairwise_stableSortDesc (records : List MRecord) :
    List.Pairwise (fun a b => dtKey (recordKey b) ≤ dtKey (recordKey a))
      (stableSortDesc records) := by
  have aux : ∀ (l acc : List MRecord),
      List.Pairwise (fun a b => dtKey (recordKey b) ≤ dtKey (recordKey a))
        acc →
      List.Pairwise (fun a b => dtKey (recordKey b) ≤ dtKey (recordKey a))
        (l.foldl (fun a r => insertDesc r a) acc) := by
    intro l
    induction l with
    | nil => intro acc hacc; simpa using hacc
    | cons r l ih =>
      intro acc hacc
      exact ih (insertDesc r acc) (pairwise_insertDesc r acc hacc)
  exact aux records [] (List.Pairwise.nil)

/-- C8 counterexample: on a two-record list mixing a naive date string
with a timezone-aware one, `_sort_by_date` raises `TypeError` — Python
cannot compare offset-naive and offset-aware datetimes — rather than
returning an ordering.  The second and third conjuncts exhibit the two
parsed keys: one naive, one aware. -/
theorem sort_by_date_mixed_tz_counterexample :
    sortByDate
        [⟨some (.str "2024-01-02T00:00:00"), Option.none, "naive record"⟩,
         ⟨some (.str "2024-01-01T00:00:00Z"), Option.none, "aware record"⟩] =
      .error
        "TypeError: cannot compare offset-naive and offset-aware datetimes" ∧
    parseDatetime
        ⟨some (.str "2024-01-02T00:00:00"), Option.none, "naive record"⟩ =
      some ⟨1704153600000000, Option.none⟩ ∧
    parseDatetime
        ⟨some (.str "2024-01-01T00:00:00Z"), Option.none, "aware record"⟩ =
      some ⟨1704067200000000, some 0⟩ :=
  ⟨rfl, by decide, by decide⟩

/-- C8 amended: when the best-effort parsed keys do not mix naive and
aware values — in particular whenever every date string is naive or
unparseable — the sort never raises and returns a permutation of the
records ordered newest-first by parsed key, with every record after an
unparseable one keyed no later than `datetime.min` (unparseable records
sort last up to ties at the minimum); when the keys do mix awareness, the
sort raises `TypeError` instead. -/
theorem sort_by_date_amended (records : List MRecord) :
    (mixedAwareness records = false →
      sortByDate records = .ok (stableSortDesc records) ∧
      (stableSortDesc records).Perm records ∧
      List.Pairwise (fun a b => dtKey (recordKey b) ≤ dtKey (recordKey a))
        (stableSortDesc records) ∧
      ∀ (i j : Fin (stableSortDesc records).length), i ≤ j →
        parseDatetime ((stableSortDesc records).get i) = Option.none →
        dtKey (recordKey ((stableSortDesc records).get j)) ≤
          dtKey pyDatetimeMin) ∧
    (mixedAwareness records = true →
      sortByDate records =
        .error
          "TypeError: cannot compare offset-naive and offset-aware datetimes")
    := by
  constructor
  · intro hmix
    refine ⟨by simp [sortByDate, hmix], stableSortDesc_perm records,
      pairwise_stableSortDesc records, ?_⟩
    intro i j hij hparse
    have hparse2 : parseDatetime ((stableSortDesc records)[(i : ℕ)]) =
        Option.none := hparse
    have hkeyi : recordKey ((stableSortDesc records).get i) = pyDatetimeMin := by
      simp [recordKey, hparse2]
    rcases lt_or_eq_of_le hij with hlt | heq
    · have hpair := (List.pairwise_iff_get.mp
        (pairwise_stableSortDesc records)) i j hlt
      rw [hkeyi] at hpair
      exact hpair
    · rw [← heq, hkeyi]
  · intro hmix
    simp [sortByDate, hmix]

/-- C8 witness: three records — ISO datetime, ISO date, unparseable —
sort newest-first with the unparseable record last, via the amended
theorem instantiated at a uniformly-naive key list. -/
theorem sort_by_date_amended_witness :
    sortByDate
        [⟨some (.str "not a date"), Option.none, "u"⟩,
         ⟨some (.str "2024-01-02"), Option.none, "b"⟩,
         ⟨some (.str "2024-03-05T10:30:00"), Option.none, "a"⟩] =
      .ok (stableSortDesc
        [⟨some (.str "not a date"), Option.none, "u"⟩,
         ⟨some (.str "2024-01-02"), Option.none, "b"⟩,
         ⟨some (.str "2024-03-05T10:30:00"), Option.none, "a"⟩]) ∧
    stableSortDesc
        [⟨some (.str "not a date"), Option.none, "u"⟩,
         ⟨some (.str "2024-01-02"), Option.none, "b"⟩,
         ⟨some (.str "2024-03-05T10:30:00"), Option.none, "a"⟩] =
      [⟨some (.str "2024-03-05T10:30:00"), Option.none, "a"⟩,
       ⟨some (.str "2024-01-02"), Option.none, "b"⟩,
       ⟨some (.str "not a date"), Option.none, "u"⟩] :=
  ⟨((sort_by_date_amended
      [⟨some (.str "not a date"), Option.none, "u"⟩,
       ⟨some (.str "2024-01-02"), Option.none, "b"⟩,
       ⟨some (.str "2024-03-05T10:30:00"), Option.none, "a"⟩]).1 rfl).1,
   by decide⟩

end MemoryStore

/-- Python truthiness of a JSON value, as used by
`assessment.get("needs_search", True)` checks. -/
def Json.truthy : Json → Bool
  | .null => false
  | .bool b => b
  | .num q => q ≠ 0
  | .str s => s ≠ ""
  | .arr xs => !xs.isEmpty
  | .obj fields => !fields.isEmpty

namespace EmailIntel

/-- The `entity_decisions` buckets of `analyze_email`
(`email_intelligence_agent.py`, lines 802-808): lists of entity names in
append order. -/
structure EntityDecisions where
  skipped_self_reference : List String
  skipped_generic : List String
  used_knowledge : List String
  searched_unknown : List String
  searched_validation : List String
  deriving DecidableEq, Repr

/-- Decision bookkeeping of one iteration of the research loop of
`analyze_email` (lines 833-945): safety re-checks for self-reference and
generic terms, then the knowledge assessment (an explicit per-entity
oracle, as in `assess_knowledge`), then the critical/validation search
split by name membership in the critical partition.  The Linkup call and
the `research_data`/`information_sources` payloads do not feed any
decision bucket and are not tracked here. -/
def researchStep (recipient_company : String)
    (critical_entities : List Entity) (assess : Entity → Json)
    (d : EntityDecisions) (entity : Entity) : EntityDecisions :=
  let entity_name := entity.name
  if isSelfReference recipient_company entity_name then
    { d with skipped_self_reference :=
        d.skipped_self_reference ++ [entity_name] }
  else if isGenericTerm entity_name entity.type then
    { d with skipped_generic := d.skipped_generic ++ [entity_name] }
  else if ((assess entity).get "needs_search" (.bool true)).truthy = false then
    { d with used_knowledge := d.used_knowledge ++ [entity_name] }
  else if critical_entities.any (fun e => e.name = entity_name) then
    { d with searched_unknown := d.searched_unknown ++ [entity_name] }
  else
    { d with searched_validation := d.searched_validation ++ [entity_name] }

/-- Decision bookkeeping for the skip partition (lines 947-953). -/
def skipStep (recipient_company : String) (d : EntityDecisions)
    (entity : Entity) : EntityDecisions :=
  let entity_name := entity.name
  if isSelfReference recipient_company entity_name then
    { d with skipped_self_reference :=
        d.skipped_self_reference ++ [entity_name] }
  else
    { d with skipped_generic := d.skipped_generic ++ [entity_name] }

/-- Decision tracking of `analyze_email` STEP 2 (lines 799-953): triage,
the validation cap of 2 — entities beyond it are appended to the
`skipped_generic` bucket with the comment "Track as efficiency skip" —
the research loop over critical plus the first two validation entities,
and the final logging of the skip partition. -/
def analyzeEmailDecisions (recipient_company : String)
    (assess : Entity → Json) (entities : List Entity) : EntityDecisions :=
  let prioritized := prioritizeEntities recipient_company entities
  let critical_entities := prioritized.critical
  let validation_entities := prioritized.validation
  let skipped_entities := prioritized.skip
  let entities_to_research := critical_entities ++ validation_entities.take 2
  let d0 : EntityDecisions := ⟨[], [], [], [], []⟩
  let d1 :=
    if validation_entities.length > 2 then
      { d0 with skipped_generic :=
          d0.skipped_generic ++
            (validation_entities.drop 2).map (fun e => e.name) }
    else d0
  let d2 := entities_to_research.foldl
    (researchStep recipient_company critical_entities assess) d1
  skipped_entities.foldl (skipStep recipient_company) d2

/-- The stats counters of the `analyze_email` return value that report
entity decisions (lines 975-988 and 1057-1078).  Costs, timings and the
percentage `efficiency_rate` are arithmetic on these counters and the
wall clock. -/
structure EmailStats where
  total_entities_detected : ℕ
  total_entities_processed : ℕ
  entities_skipped_self_reference : ℕ
  entities_skipped_generic : ℕ
  entities_used_knowledge : ℕ
  entities_searched_critical : ℕ
  entities_searched_validation : ℕ
  entities_searched : ℕ
  potential_searches : ℕ
  actual_searches : ℕ
  searches_avoided : ℕ
  deriving DecidableEq, Repr

/-- Efficiency-metric computation of `analyze_email` (lines 975-988,
1057-1078): every counter is the length of a decision bucket or a sum of
such lengths. -/
def emailStats (entities : List Entity) (d : EntityDecisions) : EmailStats :=
  let entities_with_knowledge := d.used_knowledge.length
  let entities_searched_critical := d.searched_unknown.length
  let entities_searched_validation := d.searched_validation.length
  let entities_searched :=
    entities_searched_critical + entities_searched_validation
  let entities_skipped_self := d.skipped_self_reference.length
  let entities_skipped_generic := d.skipped_generic.length
  let entities_skipped := entities_skipped_self + entities_skipped_generic
  let total_entities_processed := entities_with_knowledge + entities_searched
  let potential_searches := total_entities_processed + entities_skipped
  let actual_searches := entities_searched
  { total_entities_detected := entities.length
    total_entities_processed := total_entities_processed
    entities_skipped_self_reference := entities_skipped_self
    entities_skipped_generic := entities_skipped_generic
    entities_used_knowledge := entities_with_knowledge
    entities_searched_critical := entities_searched_critical
    entities_searched_validation := entities_searched_validation
    entities_searched := entities_searched
    potential_searches := potential_searches
    actual_searches := actual_searches
    searches_avoided := potential_searches - actual_searches }

end EmailIntel

namespace EmailIntel

/-- One research step either leaves the validation-search bucket alone or
appends the entity's name — and then only for a name outside the critical
partition. -/
theorem researchStep_sv (rc : String) (crit : List Entity)
    (assess : Entity → Json) (d : EntityDecisions) (e : Entity) :
    (researchStep rc crit assess d e).searched_validation =
        d.searched_validation ∨
      ((researchStep rc crit assess d e).searched_validation =
          d.searched_validation ++ [e.name] ∧
        crit.any (fun c => c.name = e.name) = false) := by
  unfold researchStep
  by_cases h1 : isSelfReference rc e.name = true
  · left; simp [h1]
  · by_cases h2 : isGenericTerm e.name e.type = true
    · left; simp [h1, h2]
    · by_cases h3 : ((assess e).get "needs_search" (.bool true)).truthy = false
      · left; simp [h1, h2, h3]
      · by_cases h4 : crit.any (fun c => c.name = e.name) = true
        · left; simp [h1, h2, h3, h4]
        · right
          exact ⟨by simp [h1, h2, h3, h4], by simpa using h4⟩

/-- One research step can only extend the generic-skip bucket. -/
theorem researchStep_sg (rc : String) (crit : List Entity)
    (assess : Entity → Json) (d : EntityDecisions) (e : Entity) (n : String)
    (h : n ∈ d.skipped_generic) :
    n ∈ (researchStep rc crit assess d e).skipped_generic := by
  unfold researchStep
  by_cases h1 : isSelfReference rc e.name = true
  · simpa [h1] using h
  · by_cases h2 : isGenericTerm e.name e.type = true
    · simp [h1, h2, List.mem_append]
      exact Or.inl h
    · by_cases h3 : ((assess e).get "needs_search" (.bool true)).truthy = false
      · simpa [h1, h2, h3] using h
      · by_cases h4 : crit.any (fun c => c.name = e.name) = true
        · simpa [h1, h2, h3, h4] using h
        · simpa [h1, h2, h3, h4] using h

/-- Skip-partition logging never touches the validation-search bucket. -/
theorem skipStep_sv (rc : String) (d : EntityDecisions) (e : Entity) :
    (skipStep rc d e).searched_validation = d.searched_validation := by
  simp only [skipStep]
  split <;> rfl

/-- Skip-partition logging only extends the generic-skip bucket. -/
theorem skipStep_sg (rc : String) (d : EntityDecisions) (e : Entity)
    (n : String) (h : n ∈ d.skipped_generic) :
    n ∈ (skipStep rc d e).skipped_generic := by
  unfold skipStep
  by_cases h1 : isSelfReference rc e.name = true
  · simpa [h1] using h
  · simp [h1, List.mem_append]
    exact Or.inl h

/-- Research over a list grows the validation-search bucket by at most
one name per entity. -/
theorem foldl_research_sv_len (rc : String) (crit : List Entity)
    (assess : Entity → Json) (l : List Entity) (d : EntityDecisions) :
    (l.foldl (researchStep rc crit assess) d).searched_validation.length ≤
      d.searched_validation.length + l.length := by
  induction l generalizing d with
  | nil => simp
  | cons e l ih =>
    rcases researchStep_sv rc crit assess d e with heq | ⟨heq, -⟩
    · have h2 := ih (researchStep rc crit assess d e)
      rw [heq] at h2
      simp only [List.foldl_cons, List.length_cons]
      omega
    · have h2 := ih (researchStep rc crit assess d e)
      rw [heq, List.length_append, List.length_singleton] at h2
      simp only [List.foldl_cons, List.length_cons]
      omega

/-- Research over entities whose names all belong to the critical
partition leaves the validation-search bucket unchanged. -/
theorem foldl_research_sv_critical (rc : String) (crit : List Entity)
    (assess : Entity → Json) (l : List Entity) (d : EntityDecisions)
    (h : ∀ e ∈ l, crit.any (fun c => c.name = e.name) = true) :
    (l.foldl (researchStep rc crit assess) d).searched_validation =
      d.searched_validation := by
  induction l generalizing d with
  | nil => rfl
  | cons e l ih =>
    have hstep := researchStep_sv rc crit assess d e
    rcases hstep with heq | ⟨-, hfalse⟩
    · rw [List.foldl_cons, ih _ (fun x hx => h x (List.mem_cons_of_mem e hx)),
        heq]
    · rw [h e (List.mem_cons_self e l)] at hfalse
      exact absurd hfalse (by simp)

/-- Every name researched into the validation-search bucket comes from the
researched entity list (or was there before). -/
theorem foldl_research_sv_subset (rc : String) (crit : List Entity)
    (assess : Entity → Json) (l : List Entity) (d : EntityDecisions) :
    ∀ n ∈ (l.foldl (researchStep rc crit assess) d).searched_validation,
      n ∈ d.searched_validation ∨ n ∈ l.map (fun e => e.name) := by
  induction l generalizing d with
  | nil => intro n hn; exact Or.inl hn
  | cons e l ih =>
    intro n hn
    rw [List.foldl_cons] at hn
    rcases ih (researchStep rc crit assess d e) n hn with hin | hin
    · rcases researchStep_sv rc crit assess d e with heq | ⟨heq, -⟩
      · rw [heq] at hin
        exact Or.inl hin
      · rw [heq] at hin
        rcases List.mem_append.mp hin with h1 | h1
        · exact Or.inl h1
        · right
          rw [List.mem_singleton.mp h1]
          simp
    · right
      simp only [List.map_cons, List.mem_cons]
      exact Or.inr hin

/-- Membership in the generic-skip bucket survives the research loop. -/
theorem foldl_research_sg_mem (rc : String) (crit : List Entity)
    (assess : Entity → Json) (l : List Entity) (d : EntityDecisions)
    (n : String) (h : n ∈ d.skipped_generic) :
    n ∈ (l.foldl (researchStep rc crit assess) d).skipped_generic := by
  induction l generalizing d with
  | nil => exact h
  | cons e l ih =>
    exact ih _ (researchStep_sg rc crit assess d e n h)

/-- The skip-partition loop never touches the validation-search bucket. -/
theorem foldl_skip_sv (rc : String) (l : List Entity) (d : EntityDecisions) :
    (l.foldl (skipStep rc) d).searched_validation = d.searched_validation := by
  induction l generalizing d with
  | nil => rfl
  | cons e l ih => rw [List.foldl_cons, ih, skipStep_sv]

/-- Membership in the generic-skip bucket survives the skip-partition
loop. -/
theorem foldl_skip_sg_mem (rc : String) (l : List Entity)
    (d : EntityDecisions) (n : String) (h : n ∈ d.skipped_generic) :
    n ∈ (l.foldl (skipStep rc) d).skipped_generic := by
  induction l generalizing d with
  | nil => exact h
  | cons e l ih => exact ih _ (skipStep_sg rc d e n h)

/-- Starting bucket state of `analyzeEmailDecisions`, before the research
loop: only the over-cap validation names, already in `skipped_generic`. -/
theorem analyzeEmailDecisions_eq (rc : String) (assess : Entity → Json)
    (entities : List Entity) :
    analyzeEmailDecisions rc assess entities =
      (prioritizeEntities rc entities).skip.foldl (skipStep rc)
        (((prioritizeEntities rc entities).critical ++
            (prioritizeEntities rc entities).validation.take 2).foldl
          (researchStep rc (prioritizeEntities rc entities).critical assess)
          (if (prioritizeEntities rc entities).validation.length > 2 then
            { skipped_self_reference := [],
              skipped_generic :=
                ((prioritizeEntities rc entities).validation.drop 2).map
                  (fun e => e.name),
              used_knowledge := [], searched_unknown := [],
              searched_validation := [] }
          else ⟨[], [], [], [], []⟩)) := by
  unfold analyzeEmailDecisions
  rfl

end EmailIntel

namespace EmailIntel

/-- C6 counterexample: with the operator "DataFlow AI", one generic-term
entity and three default-validation entities whose assessments all say
use-known-info, the third validation entity "Gamma Product" — beyond the
cap of 2 — is recorded in the same `skipped_generic` decision bucket as
the generic term "machine learning", and the stats merge both into the
single counter `entities_skipped_generic = 2`: the claimed skip category
distinct from generic-term skips does not exist in the efficiency
statistics. -/
theorem validation_cap_merged_bucket_counterexample :
    (prioritizeEntities "DataFlow AI"
        [⟨"machine learning", "concept", "tech mentioned"⟩,
         ⟨"Alpha Product", "product", "minor mention"⟩,
         ⟨"Beta Product", "product", "minor mention"⟩,
         ⟨"Gamma Product", "product", "minor mention"⟩]).validation =
      [⟨"Alpha Product", "product", "minor mention"⟩,
       ⟨"Beta Product", "product", "minor mention"⟩,
       ⟨"Gamma Product", "product", "minor mention"⟩] ∧
    (prioritizeEntities "DataFlow AI"
        [⟨"machine learning", "concept", "tech mentioned"⟩,
         ⟨"Alpha Product", "product", "minor mention"⟩,
         ⟨"Beta Product", "product", "minor mention"⟩,
         ⟨"Gamma Product", "product", "minor mention"⟩]).skip =
      [⟨"machine learning", "concept", "tech mentioned"⟩] ∧
    (analyzeEmailDecisions "DataFlow AI"
        (fun _ => .obj [("needs_search", .bool false)])
        [⟨"machine learning", "concept", "tech mentioned"⟩,
         ⟨"Alpha Product", "product", "minor mention"⟩,
         ⟨"Beta Product", "product", "minor mention"⟩,
         ⟨"Gamma Product", "product", "minor mention"⟩]).skipped_generic =
      ["Gamma Product", "machine learning"] ∧
    (emailStats
        [⟨"machine learning", "concept", "tech mentioned"⟩,
         ⟨"Alpha Product", "product", "minor mention"⟩,
         ⟨"Beta Product", "product", "minor mention"⟩,
         ⟨"Gamma Product", "product", "minor mention"⟩]
        (analyzeEmailDecisions "DataFlow AI"
          (fun _ => .obj [("needs_search", .bool false)])
          [⟨"machine learning", "concept", "tech mentioned"⟩,
           ⟨"Alpha Product", "product", "minor mention"⟩,
           ⟨"Beta Product", "product", "minor mention"⟩,
           ⟨"Gamma Product", "product", "minor mention"⟩])).entities_skipped_generic
      = 2 := by
  refine ⟨by decide, by decide, by decide, by decide⟩

/-- Over the critical partition plus two capped validation entities, the
validation-search bucket gathers at most two names. -/
theorem sv_len_le_two (rc : String) (assess : Entity → Json)
    (crit val : List Entity) (d : EntityDecisions)
    (hd : d.searched_validation = [])
    (hcritall : ∀ e ∈ crit, crit.any (fun c => c.name = e.name) = true) :
    ((crit ++ val.take 2).foldl (researchStep rc crit assess)
        d).searched_validation.length ≤ 2 := by
  rw [List.foldl_append]
  have h1 := foldl_research_sv_critical rc crit assess crit d hcritall
  have h2 := foldl_research_sv_len rc crit assess (val.take 2)
    (crit.foldl (researchStep rc crit assess) d)
  rw [h1, hd] at h2
  have h3 : (val.take 2).length ≤ 2 := by simp [List.length_take]
  simp only [List.length_nil, Nat.zero_add] at h2
  omega

/-- C6 amended: at most 2 entities are researched into the
validation-search bucket — every name in it comes from the critical
partition plus the first two validation entities; every validation entity
beyond the cap of 2 has its name recorded in the `skipped_generic`
decision bucket (shared with generic-term skips, not a category of its
own) and the efficiency statistics count that merged bucket as
`entities_skipped_generic` while `entities_searched_validation` counts
only the capped searches. -/
theorem validation_cap_amended (rc : String) (assess : Entity → Json)
    (entities : List Entity) :
    (analyzeEmailDecisions rc assess entities).searched_validation.length
        ≤ 2 ∧
    (∀ e ∈ (prioritizeEntities rc entities).validation.drop 2,
      e.name ∈ (analyzeEmailDecisions rc assess entities).skipped_generic) ∧
    (∀ n ∈ (analyzeEmailDecisions rc assess entities).searched_validation,
      n ∈ ((prioritizeEntities rc entities).critical ++
          (prioritizeEntities rc entities).validation.take 2).map
        (fun e => e.name)) ∧
    (emailStats entities
        (analyzeEmailDecisions rc assess entities)).entities_skipped_generic =
      (analyzeEmailDecisions rc assess entities).skipped_generic.length ∧
    (emailStats entities
        (analyzeEmailDecisions rc assess
          entities)).entities_searched_validation =
      (analyzeEmailDecisions rc assess entities).searched_validation.length
    := by
  have hcritall : ∀ e ∈ (prioritizeEntities rc entities).critical,
      (prioritizeEntities rc entities).critical.any
        (fun c => c.name = e.name) = true := by
    intro e hmem
    exact List.any_eq_true.mpr ⟨e, hmem, by simp⟩
  have hd1sv : (if (prioritizeEntities rc entities).validation.length > 2 then
      ({ skipped_self_reference := [],
         skipped_generic :=
           ((prioritizeEntities rc entities).validation.drop 2).map
             (fun e => e.name),
         used_knowledge := [], searched_unknown := [],
         searched_validation := [] } : EntityDecisions)
      else ⟨[], [], [], [], []⟩).searched_validation = [] := by
    split <;> rfl
  refine ⟨?_, ?_, ?_, rfl, rfl⟩
  · rw [analyzeEmailDecisions_eq, foldl_skip_sv]
    exact sv_len_le_two rc assess _ _ _ hd1sv hcritall
  · intro e hmem
    have hlen : (prioritizeEntities rc entities).validation.length > 2 := by
      by_contra hle
      rw [List.drop_eq_nil_of_le (by omega)] at hmem
      exact absurd hmem (List.not_mem_nil e)
    have hbase : e.name ∈
        (if (prioritizeEntities rc entities).validation.length > 2 then
          ({ skipped_self_reference := [],
             skipped_generic :=
               ((prioritizeEntities rc entities).validation.drop 2).map
                 (fun e => e.name),
             used_knowledge := [], searched_unknown := [],
             searched_validation := [] } : EntityDecisions)
          else ⟨[], [], [], [], []⟩).skipped_generic := by
      rw [if_pos hlen]
      exact List.mem_map_of_mem _ hmem
    rw [analyzeEmailDecisions_eq]
    exact foldl_skip_sg_mem _ _ _ _ (foldl_research_sg_mem _ _ _ _ _ _ hbase)
  · intro n hn
    rw [analyzeEmailDecisions_eq, foldl_skip_sv] at hn
    rcases foldl_research_sv_subset rc
      (prioritizeEntities rc entities).critical assess _ _ n hn with h | h
    · rw [hd1sv] at h
      exact absurd h (List.not_mem_nil n)
    · exact h

/-- C6 witness: the amended statement evaluated on the counterexample
scenario — "Gamma Product" (the over-cap validation entity) is in the
`skipped_generic` bucket and the validation-search bucket respects the
cap. -/
theorem validation_cap_amended_witness :
    "Gamma Product" ∈
      (analyzeEmailDecisions "DataFlow AI"
        (fun _ => .obj [("needs_search", .bool false)])
        [⟨"machine learning", "concept", "tech mentioned"⟩,
         ⟨"Alpha Product", "product", "minor mention"⟩,
         ⟨"Beta Product", "product", "minor mention"⟩,
         ⟨"Gamma Product", "product", "minor mention"⟩]).skipped_generic ∧
    (analyzeEmailDecisions "DataFlow AI"
        (fun _ => .obj [("needs_search", .bool false)])
        [⟨"machine learning", "concept", "tech mentioned"⟩,
         ⟨"Alpha Product", "product", "minor mention"⟩,
         ⟨"Beta Product", "product", "minor mention"⟩,
         ⟨"Gamma Product", "product", "minor mention"⟩]).searched_validation.length
      ≤ 2 := by
  have h := validation_cap_amended "DataFlow AI"
    (fun _ => .obj [("needs_search", .bool false)])
    [⟨"machine learning", "concept", "tech mentioned"⟩,
     ⟨"Alpha Product", "product", "minor mention"⟩,
     ⟨"Beta Product", "product", "minor mention"⟩,
     ⟨"Gamma Product", "product", "minor mention"⟩]
  refine ⟨?_, h.1⟩
  have hg := h.2.1 ⟨"Gamma Product", "product", "minor mention"⟩ (by decide)
  exact hg

end EmailIntel
